import Mathlib

set_option maxRecDepth 4000

/-!
Verification development for the ChatBox-Gin inbound-message pipeline.

The Go sources are shallowly embedded:
* pure functions (rule matching, response building) become Lean functions;
* the GORM-backed repositories become operations on an explicit in-memory
  `DB` state threaded through the pipeline;
* `float64` confidence values (only the exact constants 0, 0.5, 1 occur)
  are modeled as `Rat`;
* Go `error` results become `Option String` / `Except String`;
* the wall clock, the timezone database and the provider HTTP calls are
  passed in as explicit parameters.
-/

namespace ChatBox

/-! ### Go string primitives

Byte-wise lexicographic comparison (Go `<`, `>`, `>=`, `<=` on `string`) and
substring containment (Go `strings.Contains`), on the character level. -/

/-- Go string `<` (lexicographic). -/
def strLtB : List Char → List Char → Bool
  | [], [] => false
  | [], _ :: _ => true
  | _ :: _, [] => false
  | a :: as, b :: bs =>
    if a.toNat < b.toNat then true
    else if b.toNat < a.toNat then false
    else strLtB as bs

/-- Go string `<`. -/
def strLt (s t : String) : Bool := strLtB s.data t.data

/-- Go string `<=`. -/
def strLeB (s t : String) : Bool := !(strLt t s)

/-- Does the character list start with `p`? -/
def charsStartWith : List Char → List Char → Bool
  | [], _ => true
  | _ :: _, [] => false
  | a :: as, b :: bs => a == b && charsStartWith as bs

/-- Does the character list contain `sub` contiguously? -/
def charsContain (sub : List Char) : List Char → Bool
  | [] => sub.isEmpty
  | c :: rest => charsStartWith sub (c :: rest) || charsContain sub rest

/-- Go `strings.Contains s sub`. -/
def strContainsB (s sub : String) : Bool := charsContain sub.toList s.toList

/-- Go `strings.ToLower`, lowercasing character by character. -/
def strToLower (s : String) : String := ⟨s.data.map Char.toLower⟩

/-- Zero-pad a number to two digits, as Go `Format("15:04")` does per field. -/
def pad2 (n : Nat) : String := if n < 10 then "0" ++ toString n else toString n

/-! ### Time model

Go `time.Time` is modeled at minute precision (the rule engine only ever
formats `"15:04"` and reads the weekday): `mins` is minutes since the Unix
epoch (1970-01-01 00:00 UTC, a Thursday), in UTC. -/

structure GoTime where
  mins : Int
deriving DecidableEq, Repr

/-- `time.Unix(sec, 0)` at minute precision. -/
def GoTime.ofUnixSeconds (sec : Int) : GoTime := ⟨Int.ediv sec 60⟩

/-- `time.UnixMilli(ms)` at minute precision. -/
def GoTime.ofUnixMilli (ms : Int) : GoTime := ⟨Int.ediv ms 60000⟩

/-- Models Go `time.LoadLocation`: a fixed-offset zone table (offset east of
UTC in minutes) restricted to the zones this development needs.  An unknown
zone name yields `none`, the way `LoadLocation` returns an error; the empty
name resolves to UTC exactly as in Go. -/
def loadLocation : String → Option Int
  | "" => some 0
  | "UTC" => some 0
  | "Asia/Ho_Chi_Minh" => some 420
  | _ => none

/-- Minutes since epoch in the local zone of `tz` (UTC fallback on an
unparseable zone), as `now.In(loc)` positions the instant. -/
def localMinutes (tz : String) (now : GoTime) : Int :=
  now.mins + (loadLocation tz).getD 0

/-- Go `Weekday()` of a local minute count (0 = Sunday); the epoch day was a
Thursday (= 4). -/
def goWeekday (localMins : Int) : Int :=
  Int.emod (Int.ediv localMins 1440 + 4) 7

/-- Go `Format("15:04")` of a local minute count. -/
def formatHHmm (localMins : Int) : String :=
  let m := (Int.emod localMins 1440).toNat
  pad2 (m / 60) ++ ":" ++ pad2 (m % 60)

/-! ### Rule model — `internal/models/rule.go` -/

/-- `TriggerType`; `intent` is the reserved, unimplemented trigger. -/
inductive TriggerType where
  | keyword
  | time_window
  | fallback
  | intent
deriving DecidableEq, Repr

/-- `ResponseType`. -/
inductive ResponseType where
  | text
  | template
  | handoff
deriving DecidableEq, Repr

/-- `TriggerConfig` (the JSONB trigger configuration). -/
structure TriggerConfig where
  keywords : List String := []
  matchType : String := ""
  startTime : String := ""
  endTime : String := ""
  timezone : String := ""
  days : List Int := []
  intentName : String := ""
  confidence : Rat := 0
deriving DecidableEq, Repr

/-- `ResponseConfig` (the JSONB response configuration). -/
structure ResponseConfig where
  text : String := ""
  templateID : String := ""
  message : String := ""
  assignTo : Option Nat := none
  tags : List String := []
  priority : String := ""
deriving DecidableEq, Repr

/-- `Rule` (ids are `Nat` stand-ins for UUIDs). -/
structure Rule where
  id : Nat := 0
  workspaceID : Nat := 0
  name : String := ""
  triggerType : TriggerType := .keyword
  triggerConfig : TriggerConfig := {}
  responseType : ResponseType := .text
  responseConfig : ResponseConfig := {}
  priority : Int := 0
  isActive : Bool := true
  hitCount : Int := 0
  lastTriggeredAt : Option GoTime := none
deriving DecidableEq, Repr

def Rule.IsKeywordTrigger (r : Rule) : Bool := r.triggerType == .keyword

def Rule.IsTimeWindowTrigger (r : Rule) : Bool := r.triggerType == .time_window

def Rule.IsFallbackTrigger (r : Rule) : Bool := r.triggerType == .fallback

def Rule.IsHandoffResponse (r : Rule) : Bool := r.responseType == .handoff

/-- `Rule.MatchesKeyword`: case-insensitive match of `content` against the
configured keywords, with match type `"exact"` or `"contains"` (default
`"contains"` when unset; any other value matches nothing, as the Go `switch`
has no default case). -/
def Rule.MatchesKeyword (r : Rule) (content : String) : Bool :=
  if !r.IsKeywordTrigger then false
  else
    let contentLower := strToLower content
    let matchType :=
      if r.triggerConfig.matchType = "" then "contains" else r.triggerConfig.matchType
    r.triggerConfig.keywords.any fun keyword =>
      let keywordLower := strToLower keyword
      if matchType = "exact" then contentLower == keywordLower
      else if matchType = "contains" then strContainsB contentLower keywordLower
      else false

/-- `Rule.MatchesTimeWindow`: evaluate `now` in the configured timezone
(UTC fallback), check weekday membership when `days` is non-empty, then the
`"HH:mm"` string range, where `start > end` denotes an overnight window. -/
def Rule.MatchesTimeWindow (r : Rule) (now : GoTime) : Bool :=
  if !r.IsTimeWindowTrigger then false
  else
    let tc := r.triggerConfig
    let localMins := localMinutes tc.timezone now
    let weekday := goWeekday localMins
    if !tc.days.isEmpty && !(tc.days.contains weekday) then false
    else
      let currentTime := formatHHmm localMins
      if strLt tc.endTime tc.startTime then
        strLeB tc.startTime currentTime || strLeB currentTime tc.endTime
      else
        strLeB tc.startTime currentTime && strLeB currentTime tc.endTime

/-! ### Rule engine — `internal/bot/rule_engine.go` -/

/-- `MatchResult`; the Go zero value has confidence `0`, no rule, empty
keyword. -/
structure MatchResult where
  matched : Bool := false
  rule : Option Rule := none
  matchedKeyword : String := ""
  confidence : Rat := 0
deriving DecidableEq, Repr

/-- `ruleEngine.matchKeyword`: when the rule matches the content, the
reported keyword is the first configured keyword `kw` with
`rule.MatchesKeyword kw` — the keyword is tested against the rule's own
keyword list, not against the content. -/
def matchKeyword (r : Rule) (content : String) : Bool × String :=
  if r.MatchesKeyword content then
    match r.triggerConfig.keywords.find? (fun keyword => r.MatchesKeyword keyword) with
    | some keyword => (true, keyword)
    | none => (true, "")
  else (false, "")

/-- First pass of `ruleEngine.Match`: skip inactive rules, skip `fallback`
rules, return on the first keyword or time-window hit. -/
def MatchFirstPass : List Rule → String → GoTime → Option MatchResult
  | [], _, _ => none
  | rule :: rest, content, now =>
    if !rule.isActive then MatchFirstPass rest content now
    else
      match rule.triggerType with
      | .keyword =>
        let mk := matchKeyword rule content
        if mk.1 then
          some { matched := true, rule := some rule, matchedKeyword := mk.2, confidence := 1 }
        else MatchFirstPass rest content now
      | .time_window =>
        if rule.MatchesTimeWindow now then
          some { matched := true, rule := some rule, matchedKeyword := "", confidence := 1 }
        else MatchFirstPass rest content now
      | .fallback => MatchFirstPass rest content now
      | .intent => MatchFirstPass rest content now

/-- `ruleEngine.Match`: first pass over the caller-supplied (priority-sorted)
rules, then a second pass selecting the first active fallback rule with
confidence `0.5`. -/
def Match (rules : List Rule) (content : String) (now : GoTime) : MatchResult :=
  match MatchFirstPass rules content now with
  | some res => res
  | none =>
    match rules.find? (fun rule => rule.triggerType == .fallback && rule.isActive) with
    | some rule =>
      { matched := true, rule := some rule, matchedKeyword := "", confidence := 1/2 }
    | none => { matched := false, rule := none, matchedKeyword := "", confidence := 0 }

/-! ### Spec-side characterization of the rule engine (for C2/C3) -/

/-- Spec words: a rule is hit on the first pass when it is active, is not a
fallback rule, and its trigger (keyword or time window) fires. -/
def specFirstPassHit (rule : Rule) (content : String) (now : GoTime) : Bool :=
  rule.isActive &&
    ((rule.triggerType == .keyword && (matchKeyword rule content).1) ||
     (rule.triggerType == .time_window && rule.MatchesTimeWindow now))

/-- Spec words: the `MatchResult` produced for a first-pass hit. -/
def specFirstPassResult (rule : Rule) (content : String) : MatchResult :=
  if rule.triggerType == .keyword then
    { matched := true, rule := some rule,
      matchedKeyword := (matchKeyword rule content).2, confidence := 1 }
  else
    { matched := true, rule := some rule, matchedKeyword := "", confidence := 1 }

/-- Spec words: a keyword (tested on its own) matches the message content
under the rule's case-insensitive exact/contains mode. -/
def specKeywordMatchesContent (r : Rule) (content keyword : String) : Bool :=
  let matchType :=
    if r.triggerConfig.matchType = "" then "contains" else r.triggerConfig.matchType
  if matchType = "exact" then strToLower content == strToLower keyword
  else if matchType = "contains" then strContainsB (strToLower content) (strToLower keyword)
  else false

theorem MatchFirstPass_eq_find (rules : List Rule) (content : String) (now : GoTime) :
    MatchFirstPass rules content now =
      (rules.find? (fun r => specFirstPassHit r content now)).map
        (fun r => specFirstPassResult r content) := by
  induction rules with
  | nil => rfl
  | cons rule rest ih =>
    by_cases hhit : specFirstPassHit rule content now
    · rw [List.find?_cons_of_pos (p := fun r => specFirstPassHit r content now) _ hhit]
      have hact : rule.isActive := by
        simp [specFirstPassHit] at hhit; exact hhit.1
      simp only [specFirstPassHit, hact, Bool.true_and, Bool.or_eq_true,
        Bool.and_eq_true, beq_iff_eq] at hhit
      rcases hhit with ⟨htt, hmk⟩ | ⟨htt, htw⟩
      · simp [MatchFirstPass, hact, htt, hmk, specFirstPassResult]
      · simp [MatchFirstPass, hact, htt, htw, specFirstPassResult]
    · rw [List.find?_cons_of_neg (p := fun r => specFirstPassHit r content now) _ hhit]
      by_cases hact : rule.isActive
      · cases htt : rule.triggerType
        · have hmk : (matchKeyword rule content).1 = false := by
            cases h : (matchKeyword rule content).1
            · rfl
            · exact absurd (by simp [specFirstPassHit, hact, htt, h]) hhit
          simp [MatchFirstPass, hact, htt, hmk, ih]
        · have htw : rule.MatchesTimeWindow now = false := by
            cases h : rule.MatchesTimeWindow now
            · rfl
            · exact absurd (by simp [specFirstPassHit, hact, htt, h]) hhit
          simp [MatchFirstPass, hact, htt, htw, ih]
        · simp [MatchFirstPass, hact, htt, ih]
        · simp [MatchFirstPass, hact, htt, ih]
      · have hact2 : rule.isActive = false := by
          cases h : rule.isActive
          · rfl
          · exact absurd h hact
        simp [MatchFirstPass, hact2, ih]

/-- Full characterization of `Match`: first first-pass hit in list order,
else first active fallback at confidence `0.5`, else no match. -/
theorem Match_characterization (rules : List Rule) (content : String) (now : GoTime) :
    Match rules content now =
      match rules.find? (fun r => specFirstPassHit r content now) with
      | some r => specFirstPassResult r content
      | none =>
        match rules.find? (fun r => r.triggerType == .fallback && r.isActive) with
        | some r =>
          { matched := true, rule := some r, matchedKeyword := "", confidence := 1/2 }
        | none =>
          { matched := false, rule := none, matchedKeyword := "", confidence := 0 } := by
  unfold Match
  rw [MatchFirstPass_eq_find]
  cases rules.find? (fun r => specFirstPassHit r content now) <;> rfl

/-! ### Concrete rules used by the engine-level claims -/

def c2Rule90 : Rule :=
  { id := 1, priority := 90, triggerType := .keyword,
    triggerConfig := { keywords := ["hello"], matchType := "contains" } }

def c2Rule50 : Rule :=
  { id := 2, priority := 50, triggerType := .keyword,
    triggerConfig := { keywords := ["pricing"], matchType := "contains" } }

def c2Rule10 : Rule :=
  { id := 3, priority := 10, triggerType := .keyword,
    triggerConfig := { keywords := ["hello"], matchType := "contains" } }

def c3Rule : Rule :=
  { id := 7, triggerType := .keyword,
    triggerConfig := { keywords := ["alpha", "beta"], matchType := "contains" } }

def c4Rule : Rule :=
  { id := 8, triggerType := .time_window,
    triggerConfig := { startTime := "22:00", endTime := "06:00" } }

def c4RuleTz : Rule :=
  { c4Rule with triggerConfig := { c4Rule.triggerConfig with timezone := "Mars/Olympus" } }

def c4RuleDays : Rule :=
  { c4Rule with triggerConfig := { c4Rule.triggerConfig with days := [5] } }

/-- C2: `Match` returns the first active non-fallback rule in caller order
whose trigger fires (inactive and fallback rules are skipped on the first
pass); on no first-pass hit it returns the first active fallback rule with
confidence 0.5; otherwise `matched = false`.  In particular, with keyword
rules at priorities 90 and 10 both matching the content (caller order is
priority-descending), the priority-90 rule is returned. -/
theorem spec_C2 :
    (∀ (rules : List Rule) (content : String) (now : GoTime),
      Match rules content now =
        match rules.find? (fun r => specFirstPassHit r content now) with
        | some r => specFirstPassResult r content
        | none =>
          match rules.find? (fun r => r.triggerType == .fallback && r.isActive) with
          | some r =>
            { matched := true, rule := some r, matchedKeyword := "", confidence := 1/2 }
          | none =>
            { matched := false, rule := none, matchedKeyword := "", confidence := 0 }) ∧
    Match [c2Rule90, c2Rule50, c2Rule10] "hello there" ⟨0⟩ =
      { matched := true, rule := some c2Rule90, matchedKeyword := "hello",
        confidence := 1 } := by
  exact ⟨Match_characterization, by decide⟩

/-- C3 as written is false: on `c3Rule` (keywords `["alpha", "beta"]`,
contains mode) and content `"beta"`, the only configured keyword matching
the content is `"beta"`, yet the returned `matchedKeyword` is `"alpha"` —
`matchKeyword` tests each keyword against the rule's keyword list instead
of against the content. -/
theorem spec_C3_counterexample :
    (Match [c3Rule] "beta" ⟨0⟩).rule = some c3Rule ∧
    c3Rule.triggerConfig.keywords.filter
      (fun kw => specKeywordMatchesContent c3Rule "beta" kw) = ["beta"] ∧
    (Match [c3Rule] "beta" ⟨0⟩).matchedKeyword = "alpha" ∧
    (Match [c3Rule] "beta" ⟨0⟩).confidence = 1 := by
  decide

/-- C3 amended: for a keyword rule selected on the first pass the result's
confidence is 1.0, but `matchedKeyword` is the first configured keyword
that itself matches the rule's keyword configuration (in practice the
first configured keyword), not the first keyword matching the content. -/
theorem spec_C3_amended (rules : List Rule) (content : String) (now : GoTime) (r : Rule)
    (hfind : rules.find? (fun q => specFirstPassHit q content now) = some r)
    (htt : r.triggerType = .keyword) :
    (Match rules content now).matchedKeyword =
      (r.triggerConfig.keywords.find? (fun kw => r.MatchesKeyword kw)).getD "" ∧
    (Match rules content now).confidence = 1 := by
  have hhit := List.find?_some hfind
  simp only [specFirstPassHit, htt, Bool.and_eq_true, Bool.or_eq_true, beq_iff_eq,
    decide_eq_true_eq] at hhit
  have hmk1 : (matchKeyword r content).1 = true := by
    rcases hhit.2 with h | h
    · exact h.2
    · cases h.1
  have hm : r.MatchesKeyword content = true := by
    cases h : r.MatchesKeyword content
    · rw [matchKeyword] at hmk1
      simp [h] at hmk1
    · rfl
  rw [Match_characterization, hfind]
  have hsnd : (matchKeyword r content).2 =
      (r.triggerConfig.keywords.find? (fun kw => r.MatchesKeyword kw)).getD "" := by
    rw [matchKeyword]
    simp only [hm, if_true]
    cases r.triggerConfig.keywords.find? (fun kw => r.MatchesKeyword kw) <;> rfl
  simp [specFirstPassResult, htt, hsnd]

/-- C4: a time-window rule is evaluated in its configured timezone with UTC
fallback on an unparseable zone; a non-empty `days` list excluding the
local weekday forces `false`; `start > end` means an overnight window; and
the 22:00–06:00 window matches at 23:30 and 02:00 but not at 12:00. -/
theorem spec_C4 :
    (∀ (r : Rule) (now : GoTime), loadLocation r.triggerConfig.timezone = none →
      r.MatchesTimeWindow now =
        Rule.MatchesTimeWindow
          { r with triggerConfig := { r.triggerConfig with timezone := "UTC" } } now) ∧
    (∀ (r : Rule) (now : GoTime), r.triggerType = .time_window →
      r.triggerConfig.days ≠ [] →
      r.triggerConfig.days.contains
        (goWeekday (localMinutes r.triggerConfig.timezone now)) = false →
      r.MatchesTimeWindow now = false) ∧
    (∀ (r : Rule) (now : GoTime), r.triggerType = .time_window →
      (r.triggerConfig.days = [] ∨
        r.triggerConfig.days.contains
          (goWeekday (localMinutes r.triggerConfig.timezone now)) = true) →
      strLt r.triggerConfig.endTime r.triggerConfig.startTime = true →
      r.MatchesTimeWindow now =
        (strLeB r.triggerConfig.startTime
            (formatHHmm (localMinutes r.triggerConfig.timezone now)) ||
         strLeB (formatHHmm (localMinutes r.triggerConfig.timezone now))
            r.triggerConfig.endTime)) ∧
    c4Rule.MatchesTimeWindow ⟨23*60+30⟩ = true ∧
    c4Rule.MatchesTimeWindow ⟨2*60⟩ = true ∧
    c4Rule.MatchesTimeWindow ⟨12*60⟩ = false := by
  refine ⟨?_, ?_, ?_, by decide, by decide, by decide⟩
  · intro r now h
    have h2 : localMinutes r.triggerConfig.timezone now = localMinutes "UTC" now := by
      unfold localMinutes
      rw [h]
      rfl
    simp only [Rule.MatchesTimeWindow, Rule.IsTimeWindowTrigger, h2]
  · intro r now htt hne hcon
    have hemp : r.triggerConfig.days.isEmpty = false := by
      cases h : r.triggerConfig.days
      · exact absurd h hne
      · rfl
    have hcon2 : goWeekday (localMinutes r.triggerConfig.timezone now) ∉
        r.triggerConfig.days := by simpa using hcon
    simp [Rule.MatchesTimeWindow, Rule.IsTimeWindowTrigger, htt, hemp, hcon2]
  · intro r now htt hday hlt
    rcases hday with h | h
    · simp [Rule.MatchesTimeWindow, Rule.IsTimeWindowTrigger, htt, h, hlt]
    · have h2 : goWeekday (localMinutes r.triggerConfig.timezone now) ∈
          r.triggerConfig.days := by simpa using h
      simp [Rule.MatchesTimeWindow, Rule.IsTimeWindowTrigger, htt, h2, hlt]

/-- Witness for C4: each conditional part applied at a concrete input. -/
theorem spec_C4_witness :
    (loadLocation c4RuleTz.triggerConfig.timezone = none ∧
      c4RuleTz.MatchesTimeWindow ⟨0⟩ =
        Rule.MatchesTimeWindow
          { c4RuleTz with
            triggerConfig := { c4RuleTz.triggerConfig with timezone := "UTC" } } ⟨0⟩) ∧
    (c4RuleDays.triggerType = .time_window ∧
      c4RuleDays.triggerConfig.days ≠ [] ∧
      c4RuleDays.triggerConfig.days.contains
        (goWeekday (localMinutes c4RuleDays.triggerConfig.timezone ⟨1410⟩)) = false ∧
      c4RuleDays.MatchesTimeWindow ⟨1410⟩ = false) ∧
    (c4Rule.triggerType = .time_window ∧
      strLt c4Rule.triggerConfig.endTime c4Rule.triggerConfig.startTime = true ∧
      c4Rule.MatchesTimeWindow ⟨1410⟩ =
        (strLeB c4Rule.triggerConfig.startTime
            (formatHHmm (localMinutes c4Rule.triggerConfig.timezone ⟨1410⟩)) ||
         strLeB (formatHHmm (localMinutes c4Rule.triggerConfig.timezone ⟨1410⟩))
            c4Rule.triggerConfig.endTime)) := by
  refine ⟨⟨by decide, spec_C4.1 c4RuleTz ⟨0⟩ (by decide)⟩,
    ⟨rfl, by decide, by decide, spec_C4.2.1 c4RuleDays ⟨1410⟩ rfl (by decide) (by decide)⟩,
    ⟨rfl, by decide, spec_C4.2.2.1 c4Rule ⟨1410⟩ rfl (Or.inl rfl) (by decide)⟩⟩

/-- Witness for the amended C3, applied on `c3Rule` with content `"beta"`. -/
theorem spec_C3_amended_witness :
    [c3Rule].find? (fun q => specFirstPassHit q "beta" ⟨0⟩) = some c3Rule ∧
    c3Rule.triggerType = .keyword ∧
    ((Match [c3Rule] "beta" ⟨0⟩).matchedKeyword =
        (c3Rule.triggerConfig.keywords.find?
          (fun kw => c3Rule.MatchesKeyword kw)).getD "" ∧
      (Match [c3Rule] "beta" ⟨0⟩).confidence = 1) := by
  exact ⟨by decide, rfl, spec_C3_amended [c3Rule] "beta" ⟨0⟩ c3Rule (by decide) rfl⟩

/-! ### Canonical message shapes — `internal/channel/channel.go` -/

/-- `AttachmentData`. -/
structure AttachmentData where
  type : String := ""
  url : String := ""
  name : String := ""
  size : Int := 0
  mimeType : String := ""
deriving DecidableEq, Repr

/-- `InboundMessage` (the `RawPayload` diagnostic field is not modeled). -/
structure InboundMessage where
  channelType : String := ""
  channelMessageID : String := ""
  senderID : String := ""
  senderName : String := ""
  senderAvatar : String := ""
  recipientID : String := ""
  threadID : String := ""
  content : String := ""
  contentType : String := ""
  attachments : List AttachmentData := []
  timestamp : GoTime := ⟨0⟩
deriving DecidableEq, Repr

/-- `QuickReplyData`. -/
structure QuickReplyData where
  title : String := ""
  payload : String := ""
deriving DecidableEq, Repr

/-- `ButtonData`. -/
structure ButtonData where
  type : String := ""
  title : String := ""
  payload : String := ""
deriving DecidableEq, Repr

/-- `OutboundMessage` (the free-form `Metadata` map is not modeled). -/
structure OutboundMessage where
  recipientID : String := ""
  threadID : String := ""
  content : String := ""
  contentType : String := ""
  attachments : List AttachmentData := []
  quickReplies : List QuickReplyData := []
  buttons : List ButtonData := []
deriving DecidableEq, Repr

/-- `SendResult`; the Go `error` value becomes `Option String`. -/
structure SendResult where
  success : Bool := false
  channelMessageID : String := ""
  error : Option String := none
deriving DecidableEq, Repr

/-! ### Response builder — `internal/bot/response_builder.go` -/

/-- `responseBuilder.BuildFromRule`: text/template use the configured text
(template rendering is an unimplemented TODO); handoff uses the configured
handoff message with a fixed localized default when empty. -/
def BuildFromRule (rule : Rule) (recipientID : String) : OutboundMessage :=
  let base : OutboundMessage := { recipientID := recipientID, contentType := "text" }
  match rule.responseType with
  | .text => { base with content := rule.responseConfig.text }
  | .template => { base with content := rule.responseConfig.text }
  | .handoff =>
    { base with content :=
        if rule.responseConfig.message = "" then "Đang chuyển bạn đến nhân viên hỗ trợ..."
        else rule.responseConfig.message }

/-! ### Bot responder — `internal/bot/responder.go` -/

/-- `BotResponse`. -/
structure BotResponse where
  shouldReply : Bool := false
  response : Option OutboundMessage := none
  shouldHandoff : Bool := false
  handoffReason : String := ""
  matchedRule : Option Rule := none
  matchedKeyword : String := ""
  confidence : Rat := 0
deriving DecidableEq, Repr

/-- `responder.Process`, as a pure function of the rule list the rule store
returned (rule loading and the swallowed hit-count persistence are handled
by the pipeline embedding; the Go function returns an error only when the
rule store fails, which the in-memory store never does). -/
def Responder.Process (rules : List Rule) (recipientID content : String) (now : GoTime) :
    BotResponse :=
  if rules.isEmpty then { shouldReply := false }
  else
    let matchResult := Match rules content now
    if !matchResult.matched then { shouldReply := false }
    else
      match matchResult.rule with
      | none => { shouldReply := false }
      | some rule =>
        let base : BotResponse :=
          { matchedRule := some rule, matchedKeyword := matchResult.matchedKeyword,
            confidence := matchResult.confidence }
        if rule.IsHandoffResponse then
          let reason :=
            if rule.responseConfig.message = "" then "Customer requested agent"
            else rule.responseConfig.message
          if rule.responseConfig.message ≠ "" then
            { base with
              shouldHandoff := true
              handoffReason := reason
              shouldReply := true
              response := some (BuildFromRule rule recipientID) }
          else
            { base with shouldHandoff := true, handoffReason := reason }
        else
          { base with shouldReply := true, response := some (BuildFromRule rule recipientID) }

/-- `Match` on the empty list never matches. -/
theorem Match_nil (content : String) (now : GoTime) :
    Match [] content now =
      { matched := false, rule := none, matchedKeyword := "", confidence := 0 } := rfl

/-- When `Match` reports a match it also carries the rule. -/
theorem Match_matched_rule_isSome (rules : List Rule) (content : String) (now : GoTime)
    (h : (Match rules content now).matched = true) :
    (Match rules content now).rule.isSome := by
  rw [Match_characterization] at h ⊢
  cases h1 : rules.find? (fun r => specFirstPassHit r content now) with
  | some r =>
    by_cases h2 : r.triggerType = TriggerType.keyword <;>
      simp [specFirstPassResult, h2]
  | none =>
    rw [h1] at h
    cases h2 : rules.find? (fun r => r.triggerType == TriggerType.fallback && r.isActive) with
    | some r => simp
    | none => rw [h2] at h; simp at h

def c5RuleHandoffEmpty : Rule :=
  { id := 11, triggerType := .keyword,
    triggerConfig := { keywords := ["agent"], matchType := "contains" },
    responseType := .handoff, responseConfig := { message := "" } }

def c5RuleHandoffMsg : Rule :=
  { id := 12, triggerType := .keyword,
    triggerConfig := { keywords := ["agent"], matchType := "contains" },
    responseType := .handoff, responseConfig := { message := "Mot lat co nhan vien ho tro" } }

/-- C5: for a matched rule with response type `handoff`: with an empty
configured message, `Process` yields `shouldReply = false`,
`shouldHandoff = true` and reason `"Customer requested agent"`; with a
non-empty configured message it yields `shouldReply = true` and a built
response whose content is that message (and still hands off). -/
theorem spec_C5 (rules : List Rule) (recipientID content : String) (now : GoTime) (r : Rule)
    (hm : (Match rules content now).matched = true)
    (hr : (Match rules content now).rule = some r)
    (hh : r.responseType = .handoff) :
    (r.responseConfig.message = "" →
      (Responder.Process rules recipientID content now).shouldReply = false ∧
      (Responder.Process rules recipientID content now).shouldHandoff = true ∧
      (Responder.Process rules recipientID content now).handoffReason =
        "Customer requested agent") ∧
    (r.responseConfig.message ≠ "" →
      (Responder.Process rules recipientID content now).shouldReply = true ∧
      (Responder.Process rules recipientID content now).response =
        some (BuildFromRule r recipientID) ∧
      (BuildFromRule r recipientID).content = r.responseConfig.message ∧
      (Responder.Process rules recipientID content now).shouldHandoff = true ∧
      (Responder.Process rules recipientID content now).handoffReason =
        r.responseConfig.message) := by
  have hne : rules.isEmpty = false := by
    cases h : rules
    · rw [h] at hm; rw [Match_nil] at hm; simp at hm
    · rfl
  have hho : r.IsHandoffResponse = true := by
    simp [Rule.IsHandoffResponse, hh]
  constructor
  · intro hmsg
    simp [Responder.Process, hne, hm, hr, hho, hmsg]
  · intro hmsg
    refine ⟨?_, ?_, ?_, ?_, ?_⟩ <;>
      simp [Responder.Process, hne, hm, hr, hho, hmsg, BuildFromRule, hh]

/-- Witness for C5 on two concrete handoff rules, one with an empty message
and one with a configured message. -/
theorem spec_C5_witness :
    ((Match [c5RuleHandoffEmpty] "agent please" ⟨0⟩).matched = true ∧
      (Match [c5RuleHandoffEmpty] "agent please" ⟨0⟩).rule = some c5RuleHandoffEmpty ∧
      c5RuleHandoffEmpty.responseType = .handoff ∧
      ((Responder.Process [c5RuleHandoffEmpty] "u1" "agent please" ⟨0⟩).shouldReply = false ∧
        (Responder.Process [c5RuleHandoffEmpty] "u1" "agent please" ⟨0⟩).shouldHandoff = true ∧
        (Responder.Process [c5RuleHandoffEmpty] "u1" "agent please" ⟨0⟩).handoffReason =
          "Customer requested agent")) ∧
    ((Responder.Process [c5RuleHandoffMsg] "u1" "agent please" ⟨0⟩).shouldReply = true ∧
      (Responder.Process [c5RuleHandoffMsg] "u1" "agent please" ⟨0⟩).response =
        some (BuildFromRule c5RuleHandoffMsg "u1") ∧
      (BuildFromRule c5RuleHandoffMsg "u1").content =
        c5RuleHandoffMsg.responseConfig.message ∧
      (Responder.Process [c5RuleHandoffMsg] "u1" "agent please" ⟨0⟩).shouldHandoff = true ∧
      (Responder.Process [c5RuleHandoffMsg] "u1" "agent please" ⟨0⟩).handoffReason =
        c5RuleHandoffMsg.responseConfig.message) := by
  refine ⟨⟨by decide, by decide, rfl, ?_⟩, ?_⟩
  · exact (spec_C5 [c5RuleHandoffEmpty] "u1" "agent please" ⟨0⟩ c5RuleHandoffEmpty
      (by decide) (by decide) rfl).1 rfl
  · exact (spec_C5 [c5RuleHandoffMsg] "u1" "agent please" ⟨0⟩ c5RuleHandoffMsg
      (by decide) (by decide) rfl).2 (by decide)

/-! ### Facebook channel adapter — `internal/channel/facebook.go`

The `map[string]any → json → struct` decoding step of `Normalize` is
abstracted by taking the already-decoded `FBWebhookPayload`; the Graph API
HTTP call of `Send` is abstracted by an `HttpOutcome` parameter whose
`parsedMessageID` stands for the `message_id` field decoded from the
response body. -/

structure FBUser where
  id : String := ""
deriving DecidableEq, Repr

structure FBQuickReply where
  payload : String := ""
deriving DecidableEq, Repr

structure FBPostback where
  title : String := ""
  payload : String := ""
deriving DecidableEq, Repr

structure FBAttachPayload where
  url : String := ""
  title : String := ""
  sticker : Int := 0
deriving DecidableEq, Repr

structure FBAttachment where
  type : String := ""
  payload : FBAttachPayload := {}
deriving DecidableEq, Repr

structure FBMessage where
  mid : String := ""
  text : String := ""
  attachments : List FBAttachment := []
  quickReply : Option FBQuickReply := none
deriving DecidableEq, Repr

structure FBMessagingEvent where
  sender : FBUser := {}
  recipient : FBUser := {}
  timestamp : Int := 0
  message : Option FBMessage := none
  postback : Option FBPostback := none
deriving DecidableEq, Repr

structure FBWebhookEntry where
  id : String := ""
  time : Int := 0
  messaging : List FBMessagingEvent := []
deriving DecidableEq, Repr

structure FBWebhookPayload where
  object : String := ""
  entry : List FBWebhookEntry := []
deriving DecidableEq, Repr

/-- Attachment folding of `FacebookChannel.Normalize`: collect canonical
attachments and upgrade the content type on the first typed attachment. -/
def fbFoldAttachments : List FBAttachment → List AttachmentData → String →
    List AttachmentData × String
  | [], acc, contentType => (acc.reverse, contentType)
  | att :: rest, acc, contentType =>
    let acc := { type := att.type, url := att.payload.url : AttachmentData } :: acc
    let contentType :=
      if contentType = "text" && att.type ≠ "" then att.type else contentType
    fbFoldAttachments rest acc contentType

/-- `FacebookChannel.Normalize`: validates the `page` object and the
presence of a messaging event, then builds the canonical `InboundMessage`
from `entry[0].messaging[0]`.  The sender id is copied without any check. -/
def FacebookChannel.Normalize (channelAccountID : Nat) (payload : FBWebhookPayload) :
    Except String InboundMessage :=
  if payload.object ≠ "page" then
    .error ("invalid object type: " ++ payload.object)
  else
    match payload.entry with
    | [] => .error "no messaging events"
    | entry0 :: _ =>
      match entry0.messaging with
      | [] => .error "no messaging events"
      | event :: _ =>
        let inbound : InboundMessage :=
          { channelType := "facebook"
            senderID := event.sender.id
            recipientID := event.recipient.id
            timestamp := GoTime.ofUnixMilli event.timestamp }
        let inbound :=
          match event.message with
          | none => inbound
          | some m =>
            let (atts, ctype) := fbFoldAttachments m.attachments [] "text"
            let inbound :=
              { inbound with
                channelMessageID := m.mid
                content := m.text
                contentType := ctype
                attachments := atts }
            match m.quickReply with
            | some qr => { inbound with content := qr.payload }
            | none => inbound
        match event.postback with
        | some pb =>
          .ok { inbound with
                content := pb.payload
                contentType := "postback"
                channelMessageID := "postback_" ++ toString event.timestamp }
        | none => .ok inbound

/-- Outcome of the one HTTP POST `FacebookChannel.Send` performs. -/
inductive HttpOutcome where
  | transportError (msg : String)
  | response (status : Nat) (body : String) (parsedMessageID : String)
deriving DecidableEq, Repr

/-- Go `credentials["key"]` (missing key yields `""`). -/
def lookupCred (credentials : List (String × String)) (key : String) : String :=
  ((credentials.find? (fun kv => kv.1 == key)).map (fun kv => kv.2)).getD ""

/-- `FacebookChannel.Send`: a missing page access token, a transport error
and a non-200 provider response all yield `Success = false` with `Error`
set and a `nil` function error; the Go function in fact returns `nil` as
its `error` on every path. -/
def FacebookChannel.Send (msg : OutboundMessage) (credentials : List (String × String))
    (http : HttpOutcome) : SendResult × Option String :=
  let accessToken := lookupCred credentials "page_access_token"
  if accessToken = "" then
    ({ success := false, error := some "missing page_access_token" }, none)
  else
    match http with
    | .transportError e => ({ success := false, error := some e }, none)
    | .response status body parsedMessageID =>
      if status ≠ 200 then
        ({ success := false, error := some ("fb api error: " ++ body) }, none)
      else
        ({ success := true, channelMessageID := parsedMessageID }, none)

/-! ### Mock channel adapter — `internal/channel/mock.go`

The `map[string]any` payload is modeled field-wise; `none` stands for an
absent key or a failed type assertion.  `nowNano` and `now` stand for the
`time.Now()` reads used to synthesize ids and timestamps. -/

structure MockAttachment where
  type : String := ""
  url : String := ""
  name : String := ""
  mime_type : String := ""
deriving DecidableEq, Repr

structure MockPayload where
  sender_id : Option String := none
  sender_name : Option String := none
  message : Option String := none
  message_id : Option String := none
  timestamp : Option Int := none
  attachments : Option (List MockAttachment) := none
deriving DecidableEq, Repr

/-- `MockChannel.Normalize`: rejects a missing or empty `sender_id`,
synthesizes a message id from the sender id and the nanosecond clock when
none is supplied, and derives the content type from the first attachment
when the text content is empty. -/
def MockChannel.Normalize (channelAccountID : String) (payload : MockPayload)
    (nowNano : Nat) (now : GoTime) : Except String InboundMessage :=
  match payload.sender_id with
  | none => .error "mock payload thieu sender_id"
  | some senderID =>
    if senderID = "" then .error "mock payload thieu sender_id"
    else
      let content := payload.message.getD ""
      let messageID :=
        match payload.message_id with
        | some mid =>
          if mid = "" then "mock_" ++ senderID ++ "_" ++ toString nowNano else mid
        | none => "mock_" ++ senderID ++ "_" ++ toString nowNano
      let senderName := payload.sender_name.getD ""
      let timestamp :=
        match payload.timestamp with
        | some ts => GoTime.ofUnixSeconds ts
        | none => now
      let attachments := (payload.attachments.getD []).map fun a =>
        { type := a.type, url := a.url, name := a.name, mimeType := a.mime_type
          : AttachmentData }
      let contentType :=
        if !attachments.isEmpty && content = "" then
          ((attachments.head?.map fun a => a.type).getD "text")
        else "text"
      .ok { channelType := "mock"
            channelMessageID := messageID
            senderID := senderID
            senderName := senderName
            recipientID := channelAccountID
            content := content
            contentType := contentType
            attachments := attachments
            timestamp := timestamp }

/-- `MockChannel.Send`: rejects an empty recipient through the
`SendResult`, otherwise succeeds with a synthesized message id; the Go
`error` is `nil` on both paths. -/
def MockChannel.Send (msg : OutboundMessage) (credentials : List (String × String))
    (nowNano : Nat) : SendResult × Option String :=
  if msg.recipientID = "" then
    ({ success := false, error := some "recipient_id khong duoc de trong" }, none)
  else
    ({ success := true, channelMessageID := "mock_sent_" ++ toString nowNano }, none)

/-- C6: `Send` never signals failure through the Go function error: the
Facebook adapter returns a `nil` function error on every path; with an
empty access token it fails through the `SendResult` without the outcome
of the provider call ever mattering; a provider-reported (non-200) failure
likewise sets `Success = false` with `Error` populated; and the mock
adapter behaves the same way for its empty-recipient precondition. -/
theorem spec_C6 :
    (∀ (msg : OutboundMessage) (credentials : List (String × String)) (http : HttpOutcome),
      (FacebookChannel.Send msg credentials http).2 = none) ∧
    (∀ (msg : OutboundMessage) (credentials : List (String × String)) (http : HttpOutcome),
      lookupCred credentials "page_access_token" = "" →
      (FacebookChannel.Send msg credentials http).1.success = false ∧
      (FacebookChannel.Send msg credentials http).1.error.isSome = true ∧
      ∀ (http2 : HttpOutcome),
        FacebookChannel.Send msg credentials http =
          FacebookChannel.Send msg credentials http2) ∧
    (∀ (msg : OutboundMessage) (credentials : List (String × String))
      (status : Nat) (body mid : String),
      lookupCred credentials "page_access_token" ≠ "" → status ≠ 200 →
      (FacebookChannel.Send msg credentials (.response status body mid)).1.success
        = false ∧
      (FacebookChannel.Send msg credentials (.response status body mid)).1.error.isSome
        = true) ∧
    (∀ (msg : OutboundMessage) (credentials : List (String × String)) (nowNano : Nat),
      (MockChannel.Send msg credentials nowNano).2 = none ∧
      (msg.recipientID = "" →
        (MockChannel.Send msg credentials nowNano).1.success = false ∧
        (MockChannel.Send msg credentials nowNano).1.error.isSome = true)) := by
  refine ⟨?_, ?_, ?_, ?_⟩
  · intro msg credentials http
    unfold FacebookChannel.Send
    by_cases ht : lookupCred credentials "page_access_token" = ""
    · simp [ht]
    · cases http with
      | transportError e => simp [ht]
      | response status body mid =>
        by_cases hs : status = 200 <;> simp [ht, hs]
  · intro msg credentials http ht
    refine ⟨by simp [FacebookChannel.Send, ht], by simp [FacebookChannel.Send, ht], ?_⟩
    intro http2
    simp [FacebookChannel.Send, ht]
  · intro msg credentials status body mid ht hs
    constructor <;> simp [FacebookChannel.Send, ht, hs]
  · intro msg credentials nowNano
    constructor
    · unfold MockChannel.Send
      by_cases hr : msg.recipientID = "" <;> simp [hr]
    · intro hr
      constructor <;> simp [MockChannel.Send, hr]

/-- Witness for C6: the conditional parts applied at concrete calls — an
empty credential map, a 500 provider response, an empty mock recipient. -/
theorem spec_C6_witness :
    (FacebookChannel.Send {} [] (.transportError "net down")).2 = none ∧
    (lookupCred [] "page_access_token" = "" ∧
      (FacebookChannel.Send {} [] (.transportError "x")).1.success = false ∧
      (FacebookChannel.Send {} [] (.transportError "x")).1.error.isSome = true ∧
      FacebookChannel.Send {} [] (.transportError "x") =
        FacebookChannel.Send {} [] (.response 200 "" "mid")) ∧
    (lookupCred [("page_access_token", "tok")] "page_access_token" ≠ "" ∧
      (500 : Nat) ≠ 200 ∧
      (FacebookChannel.Send {} [("page_access_token", "tok")]
        (.response 500 "bad" "")).1.success = false ∧
      (FacebookChannel.Send {} [("page_access_token", "tok")]
        (.response 500 "bad" "")).1.error.isSome = true) ∧
    ((MockChannel.Send {} [] 0).2 = none ∧
      ({} : OutboundMessage).recipientID = "" ∧
      (MockChannel.Send {} [] 0).1.success = false ∧
      (MockChannel.Send {} [] 0).1.error.isSome = true) := by
  have h2 := spec_C6.2.1 {} [] (.transportError "x") (by decide)
  have h3 := spec_C6.2.2.1 {} [("page_access_token", "tok")] 500 "bad" "" (by decide)
    (by decide)
  have h4 := spec_C6.2.2.2 ({} : OutboundMessage) [] 0
  exact ⟨spec_C6.1 {} [] (.transportError "net down"),
    ⟨by decide, h2.1, h2.2.1, h2.2.2 (.response 200 "" "mid")⟩,
    ⟨by decide, by decide, h3.1, h3.2⟩,
    ⟨h4.1, rfl, (h4.2 rfl).1, (h4.2 rfl).2⟩⟩

/-! ### C7: concrete payloads -/

def c7FbEvent : FBMessagingEvent :=
  { sender := { id := "" }
    recipient := { id := "pg" }
    message := some { mid := "m1", text := "hi" } }

def c7FbPayload : FBWebhookPayload :=
  { object := "page"
    entry := [{ id := "pg", messaging := [c7FbEvent] }] }

def c7MockBad : MockPayload := { message := some "hello" }

def c7MockGood : MockPayload :=
  { sender_id := some "u1", message := some "hello", message_id := some "m1" }

def c7MockGoodResult : InboundMessage :=
  { channelType := "mock"
    channelMessageID := "m1"
    senderID := "u1"
    recipientID := "a"
    content := "hello"
    contentType := "text"
    timestamp := ⟨0⟩ }

/-- C7 as written is false: the Facebook adapter performs no sender check —
on a well-formed `page` payload whose messaging event has an empty
`sender.id`, `Normalize` succeeds and returns an `InboundMessage` with an
empty `SenderID`. -/
theorem spec_C7_counterexample :
    (FacebookChannel.Normalize 1 c7FbPayload).isOk = true ∧
    (FacebookChannel.Normalize 1 c7FbPayload).toOption.map (fun m => m.senderID)
      = some "" := by
  decide

/-- C7 amended: the mock adapter rejects a payload whose `sender_id` is
missing or empty and never returns an `InboundMessage` with an empty
`SenderID`; the Facebook adapter performs no such check and can return an
`InboundMessage` whose `SenderID` is empty. -/
theorem spec_C7_amended :
    (∀ (acct : String) (p : MockPayload) (nano : Nat) (now : GoTime),
      ((p.sender_id = none ∨ p.sender_id = some "") →
        MockChannel.Normalize acct p nano now = .error "mock payload thieu sender_id") ∧
      (∀ (m : InboundMessage),
        MockChannel.Normalize acct p nano now = .ok m → m.senderID ≠ "")) ∧
    (FacebookChannel.Normalize 1 c7FbPayload).toOption.map (fun m => m.senderID)
      = some "" := by
  refine ⟨?_, by decide⟩
  intro acct p nano now
  constructor
  · rintro (h | h) <;> simp [MockChannel.Normalize, h]
  · intro m hm
    cases hs : p.sender_id with
    | none => simp [MockChannel.Normalize, hs] at hm
    | some s =>
      by_cases h0 : s = ""
      · simp [MockChannel.Normalize, hs, h0] at hm
      · simp [MockChannel.Normalize, hs, h0] at hm
        rw [← hm]
        simpa using h0

/-- Witness for the amended C7 at a missing-sender payload and at a
well-formed payload. -/
theorem spec_C7_amended_witness :
    ((c7MockBad.sender_id = none ∨ c7MockBad.sender_id = some "") ∧
      MockChannel.Normalize "a" c7MockBad 0 ⟨0⟩ =
        .error "mock payload thieu sender_id") ∧
    (MockChannel.Normalize "a" c7MockGood 0 ⟨0⟩ = .ok c7MockGoodResult ∧
      c7MockGoodResult.senderID ≠ "") := by
  refine ⟨⟨Or.inl rfl, (spec_C7_amended.1 "a" c7MockBad 0 ⟨0⟩).1 (Or.inl rfl)⟩,
    ⟨rfl, ?_⟩⟩
  exact (spec_C7_amended.1 "a" c7MockGood 0 ⟨0⟩).2 c7MockGoodResult rfl

/-! ### Persistent data model — `internal/models/` (participant,
conversation, message, channel account)

UUIDs are modeled as `Nat` ids handed out by the store counter. -/

/-- `Participant`. -/
structure Participant where
  id : Nat := 0
  workspaceID : Nat := 0
  channelAccountID : Nat := 0
  channelUserID : String := ""
  name : Option String := none
  avatarURL : Option String := none
deriving DecidableEq, Repr

/-- `ConversationStatus`. -/
inductive ConversationStatus where
  | «open»
  | pending
  | closed
  | bot_paused
deriving DecidableEq, Repr

/-- `Priority`. -/
inductive ConversationPriority where
  | low
  | normal
  | high
  | urgent
deriving DecidableEq, Repr

/-- `ConversationMetadata` (the fields the pipeline touches). -/
structure ConversationMetadata where
  source : String := ""
  botHandoffReason : String := ""
  closedReason : String := ""
deriving DecidableEq, Repr

/-- `Conversation`. -/
structure Conversation where
  id : Nat := 0
  workspaceID : Nat := 0
  channelAccountID : Nat := 0
  participantID : Nat := 0
  status : ConversationStatus := .«open»
  priority : ConversationPriority := .normal
  lastMessageAt : Option GoTime := none
  lastMessagePreview : Option String := none
  metadata : ConversationMetadata := {}
deriving DecidableEq, Repr

def Conversation.IsBotPaused (c : Conversation) : Bool := c.status == .bot_paused

/-- `Conversation.PauseBot`. -/
def Conversation.PauseBot (c : Conversation) (reason : String) : Conversation :=
  { c with
    status := .bot_paused
    metadata := { c.metadata with botHandoffReason := reason } }

/-- `Conversation.UpdateLastMessage` (the 500-byte preview bound is modeled
at character granularity). -/
def Conversation.UpdateLastMessage (c : Conversation) (content : String) (at_ : GoTime) :
    Conversation :=
  { c with
    lastMessageAt := some at_
    lastMessagePreview :=
      if content.data.length > 500 then
        some ⟨content.data.take 497 ++ "...".data⟩
      else some content }

/-- `MessageDirection` (`"in"` / `"out"`). -/
inductive MessageDirection where
  | dirIn
  | dirOut
deriving DecidableEq, Repr

/-- `SenderType`. -/
inductive SenderType where
  | customer
  | bot
  | agent
deriving DecidableEq, Repr

/-- `MessageMetadata` (the bot-match fields the pipeline writes). -/
structure MessageMetadata where
  matchedRuleID : Option Nat := none
  matchedKeyword : String := ""
  confidence : Rat := 0
deriving DecidableEq, Repr

/-- `Message`. -/
structure Message where
  id : Nat := 0
  conversationID : Nat := 0
  direction : MessageDirection := .dirIn
  senderType : SenderType := .customer
  content : Option String := none
  contentType : String := ""
  attachments : List AttachmentData := []
  channelMessageID : Option String := none
  metadata : MessageMetadata := {}
deriving DecidableEq, Repr

/-- `ChannelAccount.Credentials` (the fields `processBotResponse` reads). -/
structure Credentials where
  pageAccessToken : String := ""
  appSecret : String := ""
deriving DecidableEq, Repr

/-- `ChannelAccount`. -/
structure ChannelAccount where
  id : Nat := 0
  workspaceID : Nat := 0
  credentials : Credentials := {}
deriving DecidableEq, Repr

/-! ### Store state — the GORM repositories as an in-memory database

Each list is kept newest-first (`Create` prepends), so a plain `find?`
realizes the repositories' `ORDER BY created_at DESC ... First` lookups;
`nextID` hands out fresh primary keys.  Store operations are total: the
claims under scrutiny concern pipeline logic, not injected SQL failures. -/

structure DB where
  participants : List Participant := []
  conversations : List Conversation := []
  messages : List Message := []
  rules : List Rule := []
  channelAccounts : List ChannelAccount := []
  nextID : Nat := 1
deriving Repr

/-- `participantRepo.FindOrCreate`, keyed on
(channel account id, channel user id). -/
def participantFindOrCreate (db : DB) (p : Participant) : DB × Participant × Bool :=
  match db.participants.find? (fun q =>
      q.channelAccountID == p.channelAccountID && q.channelUserID == p.channelUserID) with
  | some q => (db, q, false)
  | none =>
    let created := { p with id := db.nextID }
    ({ db with participants := created :: db.participants, nextID := db.nextID + 1 },
      created, true)

/-- Is the conversation in one of the statuses `FindOpenByParticipant`
queries (`open`, `pending`, `bot_paused`)? -/
def activeStatus (s : ConversationStatus) : Bool :=
  s == .«open» || s == .pending || s == .bot_paused

/-- `conversationRepo.FindOpenByParticipant`: newest active conversation of
the participant. -/
def conversationFindOpenByParticipant (db : DB) (participantID : Nat) :
    Option Conversation :=
  db.conversations.find? (fun c =>
    c.participantID == participantID && activeStatus c.status)

/-- `conversationRepo.FindOrCreate`. -/
def conversationFindOrCreate (db : DB) (conv : Conversation) :
    DB × Conversation × Bool :=
  match conversationFindOpenByParticipant db conv.participantID with
  | some existing => (db, existing, false)
  | none =>
    let created := { conv with id := db.nextID }
    ({ db with conversations := created :: db.conversations, nextID := db.nextID + 1 },
      created, true)

/-- `conversationRepo.Update` (GORM `Save` by primary key). -/
def conversationUpdate (db : DB) (conv : Conversation) : DB :=
  { db with conversations :=
      db.conversations.map (fun c => if c.id = conv.id then conv else c) }

/-- `messageRepo.Create`. -/
def messageCreate (db : DB) (msg : Message) : DB × Message :=
  let created := { msg with id := db.nextID }
  ({ db with messages := created :: db.messages, nextID := db.nextID + 1 }, created)

/-- `messageRepo.Update` (GORM `Save` by primary key). -/
def messageUpdate (db : DB) (msg : Message) : DB :=
  { db with messages := db.messages.map (fun m => if m.id = msg.id then msg else m) }

/-- `messageRepo.FindByChannelMessageID` (the store-level dedup lookup). -/
def messageFindByChannelMessageID (db : DB) (channelMessageID : String) :
    Option Message :=
  db.messages.find? (fun m => m.channelMessageID == some channelMessageID)

/-- Stable insertion of a rule into a priority-descending list. -/
def insertByPriority (r : Rule) : List Rule → List Rule
  | [] => [r]
  | s :: rest =>
    if s.priority < r.priority then r :: s :: rest else s :: insertByPriority r rest

/-- Stable priority-descending sort (`ORDER BY priority DESC`). -/
def sortByPriorityDesc : List Rule → List Rule
  | [] => []
  | r :: rest => insertByPriority r (sortByPriorityDesc rest)

/-- `ruleRepo.FindActiveByWorkspace`: active rules of the workspace,
priority-descending. -/
def ruleFindActiveByWorkspace (db : DB) (workspaceID : Nat) : List Rule :=
  sortByPriorityDesc (db.rules.filter (fun r =>
    r.workspaceID == workspaceID && r.isActive))

/-- `ruleRepo.IncrementHitCount`. -/
def ruleIncrementHitCount (db : DB) (ruleID : Nat) (now : GoTime) : DB :=
  { db with rules := db.rules.map (fun r =>
      if r.id = ruleID then
        { r with hitCount := r.hitCount + 1, lastTriggeredAt := some now }
      else r) }

/-- `channelAccountRepo.FindByID` (`none` models the record-not-found
error). -/
def channelAccountFindByID (db : DB) (id : Nat) : Option ChannelAccount :=
  db.channelAccounts.find? (fun a => a.id == id)

/-! ### Message orchestrator — `internal/services/message_service.go`

The channel registry and the adapters' network sends are abstracted into a
`PipelineEnv`: `registered` is the set of channel-type keys in the
registry, and `send ct msg creds` is the `SendResult × error` the adapter
registered under `ct` would produce (consulted only for registered types).
The fire-and-forget goroutines (realtime publication, Facebook profile
enrichment) never influence the returned `ProcessResult` and are not
modeled. -/

structure PipelineEnv where
  registered : List String
  send : String → OutboundMessage → List (String × String) → SendResult × Option String
  now : GoTime

/-- `botProcessResult`. -/
structure BotProcResult where
  shouldReply : Bool := false
  shouldHandoff : Bool := false
  responseSent : Option OutboundMessage := none
deriving DecidableEq, Repr

/-- `ProcessResult`. -/
structure ProcessResult where
  participantID : Nat := 0
  participantCreated : Bool := false
  conversationID : Nat := 0
  conversationCreated : Bool := false
  messageID : Nat := 0
  botReplied : Bool := false
  botHandoff : Bool := false
  responseSent : Option OutboundMessage := none
deriving DecidableEq, Repr

/-- The participant prototype `findOrCreateParticipant` builds from the
inbound message. -/
def participantProto (workspaceID channelAccountID : Nat) (inbound : InboundMessage) :
    Participant :=
  { workspaceID := workspaceID
    channelAccountID := channelAccountID
    channelUserID := inbound.senderID
    name := if inbound.senderName ≠ "" then some inbound.senderName else none
    avatarURL := if inbound.senderAvatar ≠ "" then some inbound.senderAvatar else none }

/-- The conversation prototype `findOrCreateConversation` builds. -/
def conversationProto (workspaceID channelAccountID participantID : Nat) : Conversation :=
  { workspaceID := workspaceID
    channelAccountID := channelAccountID
    participantID := participantID
    status := .«open»
    priority := .normal }

/-- `saveMessage`: persist the inbound delivery as a customer-authored
inbound message (no dedup lookup happens here). -/
def saveMessage (db : DB) (conversationID : Nat) (inbound : InboundMessage) :
    DB × Message :=
  messageCreate db
    { conversationID := conversationID
      direction := .dirIn
      senderType := .customer
      contentType := inbound.contentType
      content := if inbound.content ≠ "" then some inbound.content else none
      channelMessageID :=
        if inbound.channelMessageID ≠ "" then some inbound.channelMessageID else none
      attachments := inbound.attachments }

/-- The bot-authored outbound message `processBotResponse` persists. -/
def botOutMessage (convID : Nat) (botResponse : BotResponse) (resp : OutboundMessage) :
    Message :=
  { conversationID := convID
    direction := .dirOut
    senderType := .bot
    content := some resp.content
    contentType := "text"
    metadata :=
      { matchedRuleID := (botResponse.matchedRule.map (fun r => r.id))
        matchedKeyword := botResponse.matchedKeyword
        confidence := botResponse.confidence } }

/-- The credentials map `processBotResponse` builds from the channel
account. -/
def credsOf (acct : ChannelAccount) : List (String × String) :=
  [("page_access_token", acct.credentials.pageAccessToken),
   ("app_secret", acct.credentials.appSecret)]

/-- The send path of `processBotResponse`, entered when the responder asks
for a reply: persist the bot message, resolve the adapter, gather
credentials, `Send`, and back-fill the provider message id on success. -/
def botSendPath (env : PipelineEnv) (db : DB) (channelAccountID : Nat)
    (convID : Nat) (botResponse : BotResponse) (resp : OutboundMessage)
    (channelType : String) (base : BotProcResult) : DB × Except String BotProcResult :=
  let created := messageCreate db (botOutMessage convID botResponse resp)
  let db := created.1
  let outMsg := created.2
  if !env.registered.contains channelType then
    (db, .error "channel not registered")
  else
    match channelAccountFindByID db channelAccountID with
    | none => (db, .ok base)
    | some acct =>
      let sent := env.send channelType resp (credsOf acct)
      let sendResult := sent.1
      match sent.2 with
      | some _ => (db, .ok base)
      | none =>
        if sendResult.success then
          let db :=
            if sendResult.channelMessageID ≠ "" then
              messageUpdate db
                { outMsg with channelMessageID := some sendResult.channelMessageID }
            else db
          (db, .ok { base with shouldReply := true, responseSent := some resp })
        else (db, .ok base)

/-- `processBotResponse`: run the responder over the workspace's active
rules, increment the matched rule's hit count, pause the conversation on
handoff, persist and dispatch the reply, and back-fill the provider id on
a successful send.  The `Except.error` case models the `registry.Get`
failure that Go propagates to `ProcessInbound` (where it is logged and
swallowed). -/
def processBotResponse (env : PipelineEnv) (db : DB)
    (workspaceID channelAccountID : Nat) (conv : Conversation)
    (inbound : InboundMessage) : DB × Except String BotProcResult :=
  let rules := ruleFindActiveByWorkspace db workspaceID
  let botResponse := Responder.Process rules inbound.senderID inbound.content env.now
  let db :=
    match botResponse.matchedRule with
    | some r => ruleIncrementHitCount db r.id env.now
    | none => db
  let db :=
    if botResponse.shouldHandoff then
      conversationUpdate db (conv.PauseBot botResponse.handoffReason)
    else db
  let convID := conv.id
  let base : BotProcResult := { shouldHandoff := botResponse.shouldHandoff }
  match botResponse.response, botResponse.shouldReply with
  | some resp, true =>
    botSendPath env db channelAccountID convID botResponse resp inbound.channelType base
  | _, _ => (db, .ok base)

/-- The bot step of `ProcessInbound` (step 6): skipped when the
conversation is bot-paused; a `processBotResponse` error is logged and
swallowed, leaving the bot-result fields at their zero values. -/
def botStep (env : PipelineEnv) (db : DB) (workspaceID channelAccountID : Nat)
    (conversation : Conversation) (inbound : InboundMessage) : DB × BotProcResult :=
  if !conversation.IsBotPaused then
    let pbr := processBotResponse env db workspaceID channelAccountID conversation inbound
    match pbr.2 with
    | .error _ => (pbr.1, {})
    | .ok bpr => (pbr.1, bpr)
  else (db, {})

/-- `messageService.ProcessInbound`: resolve participant and conversation,
persist the inbound message, update the conversation summary, and run the
bot step unless the conversation is bot-paused.  Bot-step errors are
swallowed; with total stores the pipeline itself always returns `.ok`. -/
def ProcessInbound (env : PipelineEnv) (db : DB) (workspaceID channelAccountID : Nat)
    (inbound : InboundMessage) : DB × Except String ProcessResult :=
  let s1 := participantFindOrCreate db (participantProto workspaceID channelAccountID inbound)
  let db1 := s1.1
  let participant := s1.2.1
  let participantCreated := s1.2.2
  let s2 := conversationFindOrCreate db1
    (conversationProto workspaceID channelAccountID participant.id)
  let db2 := s2.1
  let conversationCreated := s2.2.2
  let s3 := saveMessage db2 s2.2.1.id inbound
  let db3 := s3.1
  let message := s3.2
  let conversation := s2.2.1.UpdateLastMessage inbound.content inbound.timestamp
  let db4 := conversationUpdate db3 conversation
  let s5 := botStep env db4 workspaceID channelAccountID conversation inbound
  (s5.1, .ok
    { participantID := participant.id
      participantCreated := participantCreated
      conversationID := conversation.id
      conversationCreated := conversationCreated
      messageID := message.id
      botReplied := s5.2.shouldReply
      botHandoff := s5.2.shouldHandoff
      responseSent := s5.2.responseSent })

/-! ### Pipeline invariants and bookkeeping lemmas -/

/-- Freshness of message primary keys: every persisted message id is below
the store counter.  This holds for every store state the pipeline itself
produces and is the only well-formedness the theorems need. -/
def DB.wfMessages (db : DB) : Prop := ∀ m ∈ db.messages, m.id < db.nextID

instance (db : DB) : Decidable db.wfMessages := by
  unfold DB.wfMessages; infer_instance

/-- Number of inbound (customer-direction) messages carrying the given
provider message id. -/
def inboundCountWithCMID (db : DB) (c : String) : Nat :=
  (db.messages.filter (fun m =>
    m.direction == MessageDirection.dirIn && m.channelMessageID == some c)).length

/-- The responder output `processBotResponse` computes, as a function of
the state the pipeline entered with (steps 1–5 never touch the rules). -/
def responderOf (env : PipelineEnv) (db : DB) (workspaceID : Nat)
    (inbound : InboundMessage) : BotResponse :=
  Responder.Process (ruleFindActiveByWorkspace db workspaceID)
    inbound.senderID inbound.content env.now

theorem participantFindOrCreate_messages (db : DB) (p : Participant) :
    (participantFindOrCreate db p).1.messages = db.messages := by
  unfold participantFindOrCreate
  cases db.participants.find? (fun q =>
    q.channelAccountID == p.channelAccountID && q.channelUserID == p.channelUserID) <;> rfl

theorem participantFindOrCreate_conversations (db : DB) (p : Participant) :
    (participantFindOrCreate db p).1.conversations = db.conversations := by
  unfold participantFindOrCreate
  cases db.participants.find? (fun q =>
    q.channelAccountID == p.channelAccountID && q.channelUserID == p.channelUserID) <;> rfl

theorem participantFindOrCreate_rules (db : DB) (p : Participant) :
    (participantFindOrCreate db p).1.rules = db.rules := by
  unfold participantFindOrCreate
  cases db.participants.find? (fun q =>
    q.channelAccountID == p.channelAccountID && q.channelUserID == p.channelUserID) <;> rfl

theorem participantFindOrCreate_channelAccounts (db : DB) (p : Participant) :
    (participantFindOrCreate db p).1.channelAccounts = db.channelAccounts := by
  unfold participantFindOrCreate
  cases db.participants.find? (fun q =>
    q.channelAccountID == p.channelAccountID && q.channelUserID == p.channelUserID) <;> rfl

theorem participantFindOrCreate_nextID_le (db : DB) (p : Participant) :
    db.nextID ≤ (participantFindOrCreate db p).1.nextID := by
  unfold participantFindOrCreate
  cases db.participants.find? (fun q =>
    q.channelAccountID == p.channelAccountID && q.channelUserID == p.channelUserID)
  · exact Nat.le_succ _
  · exact Nat.le_refl _

theorem conversationFindOrCreate_messages (db : DB) (conv : Conversation) :
    (conversationFindOrCreate db conv).1.messages = db.messages := by
  unfold conversationFindOrCreate
  cases conversationFindOpenByParticipant db conv.participantID <;> rfl

theorem conversationFindOrCreate_participants (db : DB) (conv : Conversation) :
    (conversationFindOrCreate db conv).1.participants = db.participants := by
  unfold conversationFindOrCreate
  cases conversationFindOpenByParticipant db conv.participantID <;> rfl

theorem conversationFindOrCreate_rules (db : DB) (conv : Conversation) :
    (conversationFindOrCreate db conv).1.rules = db.rules := by
  unfold conversationFindOrCreate
  cases conversationFindOpenByParticipant db conv.participantID <;> rfl

theorem conversationFindOrCreate_channelAccounts (db : DB) (conv : Conversation) :
    (conversationFindOrCreate db conv).1.channelAccounts = db.channelAccounts := by
  unfold conversationFindOrCreate
  cases conversationFindOpenByParticipant db conv.participantID <;> rfl

theorem conversationFindOrCreate_nextID_le (db : DB) (conv : Conversation) :
    db.nextID ≤ (conversationFindOrCreate db conv).1.nextID := by
  unfold conversationFindOrCreate
  cases conversationFindOpenByParticipant db conv.participantID
  · exact Nat.le_succ _
  · exact Nat.le_refl _

theorem conversationUpdate_messages (db : DB) (conv : Conversation) :
    (conversationUpdate db conv).messages = db.messages := rfl

theorem conversationUpdate_participants (db : DB) (conv : Conversation) :
    (conversationUpdate db conv).participants = db.participants := rfl

theorem conversationUpdate_rules (db : DB) (conv : Conversation) :
    (conversationUpdate db conv).rules = db.rules := rfl

theorem conversationUpdate_channelAccounts (db : DB) (conv : Conversation) :
    (conversationUpdate db conv).channelAccounts = db.channelAccounts := rfl

theorem conversationUpdate_nextID (db : DB) (conv : Conversation) :
    (conversationUpdate db conv).nextID = db.nextID := rfl

theorem messageCreate_conversations (db : DB) (msg : Message) :
    (messageCreate db msg).1.conversations = db.conversations := rfl

theorem messageCreate_participants (db : DB) (msg : Message) :
    (messageCreate db msg).1.participants = db.participants := rfl

theorem messageCreate_rules (db : DB) (msg : Message) :
    (messageCreate db msg).1.rules = db.rules := rfl

theorem messageCreate_channelAccounts (db : DB) (msg : Message) :
    (messageCreate db msg).1.channelAccounts = db.channelAccounts := rfl

theorem messageCreate_messages (db : DB) (msg : Message) :
    (messageCreate db msg).1.messages = { msg with id := db.nextID } :: db.messages := rfl

theorem messageUpdate_conversations (db : DB) (msg : Message) :
    (messageUpdate db msg).conversations = db.conversations := rfl

theorem messageUpdate_participants (db : DB) (msg : Message) :
    (messageUpdate db msg).participants = db.participants := rfl

theorem messageUpdate_rules (db : DB) (msg : Message) :
    (messageUpdate db msg).rules = db.rules := rfl

theorem messageUpdate_channelAccounts (db : DB) (msg : Message) :
    (messageUpdate db msg).channelAccounts = db.channelAccounts := rfl

theorem ruleIncrementHitCount_messages (db : DB) (ruleID : Nat) (now : GoTime) :
    (ruleIncrementHitCount db ruleID now).messages = db.messages := rfl

theorem ruleIncrementHitCount_conversations (db : DB) (ruleID : Nat) (now : GoTime) :
    (ruleIncrementHitCount db ruleID now).conversations = db.conversations := rfl

theorem ruleIncrementHitCount_participants (db : DB) (ruleID : Nat) (now : GoTime) :
    (ruleIncrementHitCount db ruleID now).participants = db.participants := rfl

theorem ruleIncrementHitCount_channelAccounts (db : DB) (ruleID : Nat) (now : GoTime) :
    (ruleIncrementHitCount db ruleID now).channelAccounts = db.channelAccounts := rfl

theorem ruleIncrementHitCount_nextID (db : DB) (ruleID : Nat) (now : GoTime) :
    (ruleIncrementHitCount db ruleID now).nextID = db.nextID := rfl

theorem saveMessage_messages (db : DB) (conversationID : Nat) (inbound : InboundMessage) :
    (saveMessage db conversationID inbound).1.messages =
      (saveMessage db conversationID inbound).2 :: db.messages := rfl

theorem saveMessage_snd_direction (db : DB) (conversationID : Nat)
    (inbound : InboundMessage) :
    (saveMessage db conversationID inbound).2.direction = .dirIn := rfl

theorem saveMessage_conversations (db : DB) (conversationID : Nat)
    (inbound : InboundMessage) :
    (saveMessage db conversationID inbound).1.conversations = db.conversations := rfl

theorem saveMessage_participants (db : DB) (conversationID : Nat)
    (inbound : InboundMessage) :
    (saveMessage db conversationID inbound).1.participants = db.participants := rfl

theorem saveMessage_rules (db : DB) (conversationID : Nat) (inbound : InboundMessage) :
    (saveMessage db conversationID inbound).1.rules = db.rules := rfl

theorem saveMessage_channelAccounts (db : DB) (conversationID : Nat)
    (inbound : InboundMessage) :
    (saveMessage db conversationID inbound).1.channelAccounts = db.channelAccounts := rfl

/-- `ruleFindActiveByWorkspace` depends only on the rules table. -/
theorem ruleFindActiveByWorkspace_ext (db1 db2 : DB) (workspaceID : Nat)
    (h : db1.rules = db2.rules) :
    ruleFindActiveByWorkspace db1 workspaceID = ruleFindActiveByWorkspace db2 workspaceID := by
  unfold ruleFindActiveByWorkspace
  rw [h]

/-- `channelAccountFindByID` depends only on the channel-account table. -/
theorem channelAccountFindByID_ext (db1 db2 : DB) (id : Nat)
    (h : db1.channelAccounts = db2.channelAccounts) :
    channelAccountFindByID db1 id = channelAccountFindByID db2 id := by
  unfold channelAccountFindByID
  rw [h]

theorem messageCreate_nextID (db : DB) (msg : Message) :
    (messageCreate db msg).1.nextID = db.nextID + 1 := rfl

theorem wfMessages_of_eq_mono (db db2 : DB) (h : db.wfMessages)
    (hm : db2.messages = db.messages) (hn : db.nextID ≤ db2.nextID) : db2.wfMessages := by
  intro m hmem
  rw [hm] at hmem
  exact Nat.lt_of_lt_of_le (h m hmem) hn

theorem wfMessages_messageCreate (db : DB) (msg : Message) (h : db.wfMessages) :
    (messageCreate db msg).1.wfMessages := by
  intro m hmem
  rw [messageCreate_messages] at hmem
  rw [messageCreate_nextID]
  rcases List.mem_cons.mp hmem with hm | hm
  · rw [hm]
    exact Nat.lt_succ_self _
  · exact Nat.lt_succ_of_lt (h m hm)

theorem wfMessages_messageUpdate (db : DB) (msg : Message) (h : db.wfMessages)
    (hid : msg.id < db.nextID) : (messageUpdate db msg).wfMessages := by
  intro m hmem
  have hnext : (messageUpdate db msg).nextID = db.nextID := rfl
  rw [hnext]
  unfold messageUpdate at hmem
  simp only [List.mem_map] at hmem
  obtain ⟨a, ha, hfa⟩ := hmem
  by_cases hia : a.id = msg.id
  · rw [if_pos hia] at hfa
    rw [← hfa]
    exact hid
  · rw [if_neg hia] at hfa
    rw [← hfa]
    exact h a ha

/-- Replacing the message with a given id by a message the filter rejects,
when every message carrying that id is already rejected, keeps the filter
count. -/
theorem filter_length_map_replace (msg : Message) (p : Message → Bool) (l : List Message)
    (hall : ∀ m ∈ l, m.id = msg.id → p m = false) (hmsg : p msg = false) :
    ((l.map (fun m => if m.id = msg.id then msg else m)).filter p).length
      = (l.filter p).length := by
  induction l with
  | nil => rfl
  | cons a t ih =>
    have ihall : ∀ m ∈ t, m.id = msg.id → p m = false := fun m hm => hall m (by simp [hm])
    by_cases hia : a.id = msg.id
    · have hpa : p a = false := hall a (by simp) hia
      simp only [List.map_cons, if_pos hia, List.filter_cons, hmsg, hpa]
      simp only [Bool.false_eq_true, if_false]
      exact ih ihall
    · simp only [List.map_cons, if_neg hia, List.filter_cons]
      cases hpa : p a <;> simp [hpa, ih ihall]

/-- Replacing by id keeps membership of any id. -/
theorem any_id_map_replace (conv2 : Conversation) (cid : Nat) (l : List Conversation)
    (h : l.any (fun x => x.id == cid) = true) :
    (l.map (fun x => if x.id = conv2.id then conv2 else x)).any
      (fun x => x.id == cid) = true := by
  induction l with
  | nil => simp at h
  | cons a t ih =>
    simp only [List.any_cons, Bool.or_eq_true] at h
    rcases h with ha | ht
    · have h2 : a.id = cid := by simpa using ha
      by_cases hia : a.id = conv2.id
      · have h1 : conv2.id = cid := by rw [← hia, h2]
        simp only [List.map_cons, if_pos hia, List.any_cons, Bool.or_eq_true]
        exact Or.inl (by simpa using h1)
      · simp only [List.map_cons, if_neg hia, List.any_cons, Bool.or_eq_true]
        exact Or.inl (by simpa using h2)
    · by_cases hia : a.id = conv2.id <;>
        · simp only [List.map_cons, if_pos, if_neg, hia, List.any_cons, Bool.or_eq_true]
          exact Or.inr (ih ht)

/-- After replacing by id, `find?` on that id yields the replacement,
provided the id was present. -/
theorem find?_id_map_replace (conv2 : Conversation) (l : List Conversation)
    (hpres : l.any (fun x => x.id == conv2.id) = true) :
    (l.map (fun x => if x.id = conv2.id then conv2 else x)).find?
      (fun x => x.id == conv2.id) = some conv2 := by
  induction l with
  | nil => simp at hpres
  | cons a t ih =>
    by_cases hia : a.id = conv2.id
    · simp only [List.map_cons, if_pos hia]
      exact List.find?_cons_of_pos _ (by simp)
    · simp only [List.any_cons, Bool.or_eq_true] at hpres
      rcases hpres with ha | ht
      · exact absurd (by simpa using ha) hia
      · simp only [List.map_cons, if_neg hia]
        rw [List.find?_cons_of_neg _ (by simpa using hia)]
        exact ih ht

/-- The active-conversation lookup, after a replace-by-id with an active
conversation of the same participant and the id of the conversation the
lookup previously returned, yields the replacement. -/
theorem find?_active_map_replace (pid : Nat) (c conv2 : Conversation)
    (l : List Conversation)
    (hfind : l.find? (fun x => x.participantID == pid && activeStatus x.status) = some c)
    (hid : conv2.id = c.id) (hpid : conv2.participantID = pid)
    (hact : activeStatus conv2.status = true) :
    (l.map (fun x => if x.id = conv2.id then conv2 else x)).find?
      (fun x => x.participantID == pid && activeStatus x.status) = some conv2 := by
  have hP2 : (conv2.participantID == pid && activeStatus conv2.status) = true := by
    simp [hpid, hact]
  induction l with
  | nil => simp at hfind
  | cons a t ih =>
    by_cases hPa : (a.participantID == pid && activeStatus a.status) = true
    · have hac : a = c := by
        rw [List.find?_cons_of_pos (p := fun x =>
          x.participantID == pid && activeStatus x.status) t hPa] at hfind
        exact Option.some.inj hfind
      have hia : a.id = conv2.id := by rw [hac, hid]
      simp only [List.map_cons, if_pos hia]
      exact List.find?_cons_of_pos _ hP2
    · have hfind2 : t.find? (fun x => x.participantID == pid && activeStatus x.status)
          = some c := by
        rw [List.find?_cons_of_neg (p := fun x =>
          x.participantID == pid && activeStatus x.status) t (by simpa using hPa)] at hfind
        exact hfind
      by_cases hia : a.id = conv2.id
      · simp only [List.map_cons, if_pos hia]
        exact List.find?_cons_of_pos _ hP2
      · simp only [List.map_cons, if_neg hia]
        rw [List.find?_cons_of_neg _ (by simpa using hPa)]
        exact ih hfind2

/-- A successful `find?` witnesses its id being present. -/
theorem any_id_of_find?_pred (P : Conversation → Bool) (l : List Conversation)
    (c : Conversation) (h : l.find? P = some c) :
    l.any (fun x => x.id == c.id) = true := by
  have hmem : c ∈ l := List.mem_of_find?_eq_some h
  simp only [List.any_eq_true]
  exact ⟨c, hmem, by simp⟩

/-- `botSendPath` touches only the message table and the id counter. -/
theorem botSendPath_tables (env : PipelineEnv) (db : DB) (channelAccountID convID : Nat)
    (br : BotResponse) (resp : OutboundMessage) (channelType : String)
    (base : BotProcResult) :
    (botSendPath env db channelAccountID convID br resp channelType base).1.participants
        = db.participants ∧
    (botSendPath env db channelAccountID convID br resp channelType base).1.conversations
        = db.conversations ∧
    (botSendPath env db channelAccountID convID br resp channelType base).1.rules
        = db.rules ∧
    (botSendPath env db channelAccountID convID br resp channelType base).1.channelAccounts
        = db.channelAccounts := by
  unfold botSendPath
  dsimp only
  split
  · exact ⟨rfl, rfl, rfl, rfl⟩
  · split
    · exact ⟨rfl, rfl, rfl, rfl⟩
    · split
      · exact ⟨rfl, rfl, rfl, rfl⟩
      · split
        · split <;> exact ⟨rfl, rfl, rfl, rfl⟩
        · exact ⟨rfl, rfl, rfl, rfl⟩

/-- `processBotResponse` leaves the participant and channel-account tables
untouched, and its effect on the conversation table is exactly the pause
update (when the responder hands off). -/
theorem processBotResponse_tables (env : PipelineEnv) (db : DB)
    (workspaceID channelAccountID : Nat) (conv : Conversation) (inbound : InboundMessage) :
    (processBotResponse env db workspaceID channelAccountID conv inbound).1.participants
        = db.participants ∧
    (processBotResponse env db workspaceID channelAccountID conv inbound).1.channelAccounts
        = db.channelAccounts ∧
    (processBotResponse env db workspaceID channelAccountID conv inbound).1.conversations
        = (if (responderOf env db workspaceID inbound).shouldHandoff then
            DB.conversations (conversationUpdate db
              (conv.PauseBot (responderOf env db workspaceID inbound).handoffReason))
          else db.conversations) := by
  unfold processBotResponse responderOf
  dsimp only
  cases hmr : (Responder.Process (ruleFindActiveByWorkspace db workspaceID)
      inbound.senderID inbound.content env.now).matchedRule <;>
    cases hsh : (Responder.Process (ruleFindActiveByWorkspace db workspaceID)
      inbound.senderID inbound.content env.now).shouldHandoff <;>
    cases hre : (Responder.Process (ruleFindActiveByWorkspace db workspaceID)
      inbound.senderID inbound.content env.now).response <;>
    cases hrp : (Responder.Process (ruleFindActiveByWorkspace db workspaceID)
      inbound.senderID inbound.content env.now).shouldReply <;>
    try simp only [Bool.false_eq_true, if_false, if_true]
  all_goals
    first
      | trivial
      | exact ⟨rfl, rfl, rfl⟩
      | refine ⟨?_, ?_, ?_⟩ <;>
          first
            | trivial
            | rfl
            | exact (botSendPath_tables ..).1
            | exact (botSendPath_tables ..).2.2.2
            | exact (botSendPath_tables ..).2.1

/-! ### Named projections of the pipeline's intermediate states

These name exactly what `ProcessInbound` computes step by step, so the
theorems can speak about the resolved participant/conversation without
re-running the pipeline in their statements. -/

/-- The participant step 1 resolves. -/
def resolvedParticipant (db : DB) (ws ca : Nat) (i : InboundMessage) : Participant :=
  (participantFindOrCreate db (participantProto ws ca i)).2.1

/-- The conversation step 2 resolves. -/
def resolvedConversation (db : DB) (ws ca : Nat) (i : InboundMessage) : Conversation :=
  (conversationFindOrCreate (participantFindOrCreate db (participantProto ws ca i)).1
    (conversationProto ws ca (resolvedParticipant db ws ca i).id)).2.1

/-- The store state after step 2. -/
def dbAfterConvResolve (db : DB) (ws ca : Nat) (i : InboundMessage) : DB :=
  (conversationFindOrCreate (participantFindOrCreate db (participantProto ws ca i)).1
    (conversationProto ws ca (resolvedParticipant db ws ca i).id)).1

/-- Step 3: the persisted inbound message together with the store. -/
def savedInbound (db : DB) (ws ca : Nat) (i : InboundMessage) : DB × Message :=
  saveMessage (dbAfterConvResolve db ws ca i) (resolvedConversation db ws ca i).id i

/-- The conversation after the step-4 summary update. -/
def summaryConv (db : DB) (ws ca : Nat) (i : InboundMessage) : Conversation :=
  (resolvedConversation db ws ca i).UpdateLastMessage i.content i.timestamp

/-- The store state after step 4. -/
def dbAfterSummary (db : DB) (ws ca : Nat) (i : InboundMessage) : DB :=
  conversationUpdate (savedInbound db ws ca i).1 (summaryConv db ws ca i)

/-- Step 6, applied to the named step states. -/
def botStepOf (env : PipelineEnv) (db : DB) (ws ca : Nat) (i : InboundMessage) :
    DB × BotProcResult :=
  botStep env (dbAfterSummary db ws ca i) ws ca (summaryConv db ws ca i) i

/-- `ProcessInbound`, written through the named step projections. -/
theorem ProcessInbound_unfold (env : PipelineEnv) (db : DB) (ws ca : Nat)
    (i : InboundMessage) :
    ProcessInbound env db ws ca i =
      ((botStepOf env db ws ca i).1,
        .ok
          { participantID := (resolvedParticipant db ws ca i).id
            participantCreated := (participantFindOrCreate db (participantProto ws ca i)).2.2
            conversationID := (resolvedConversation db ws ca i).id
            conversationCreated :=
              (conversationFindOrCreate (participantFindOrCreate db (participantProto ws ca i)).1
                (conversationProto ws ca (resolvedParticipant db ws ca i).id)).2.2
            messageID := (savedInbound db ws ca i).2.id
            botReplied := (botStepOf env db ws ca i).2.shouldReply
            botHandoff := (botStepOf env db ws ca i).2.shouldHandoff
            responseSent := (botStepOf env db ws ca i).2.responseSent }) := rfl

/-- `UpdateLastMessage` does not change identity, participant or status. -/
theorem UpdateLastMessage_id (c : Conversation) (s : String) (t : GoTime) :
    (c.UpdateLastMessage s t).id = c.id := rfl

theorem UpdateLastMessage_participantID (c : Conversation) (s : String) (t : GoTime) :
    (c.UpdateLastMessage s t).participantID = c.participantID := rfl

theorem UpdateLastMessage_status (c : Conversation) (s : String) (t : GoTime) :
    (c.UpdateLastMessage s t).status = c.status := rfl

theorem UpdateLastMessage_IsBotPaused (c : Conversation) (s : String) (t : GoTime) :
    (c.UpdateLastMessage s t).IsBotPaused = c.IsBotPaused := rfl

/-- Tables after the summary step: rules and channel accounts are those of
the original store; the messages are the saved inbound message on top of
the original messages. -/
theorem dbAfterSummary_tables (db : DB) (ws ca : Nat) (i : InboundMessage) :
    (dbAfterSummary db ws ca i).rules = db.rules ∧
    (dbAfterSummary db ws ca i).channelAccounts = db.channelAccounts ∧
    (dbAfterSummary db ws ca i).participants
      = (participantFindOrCreate db (participantProto ws ca i)).1.participants ∧
    (dbAfterSummary db ws ca i).messages
      = (savedInbound db ws ca i).2 :: db.messages := by
  refine ⟨?_, ?_, ?_, ?_⟩
  · show (savedInbound db ws ca i).1.rules = db.rules
    unfold savedInbound dbAfterConvResolve
    rw [saveMessage_rules, conversationFindOrCreate_rules, participantFindOrCreate_rules]
  · show (savedInbound db ws ca i).1.channelAccounts = db.channelAccounts
    unfold savedInbound dbAfterConvResolve
    rw [saveMessage_channelAccounts, conversationFindOrCreate_channelAccounts,
      participantFindOrCreate_channelAccounts]
  · show (savedInbound db ws ca i).1.participants = _
    unfold savedInbound dbAfterConvResolve
    rw [saveMessage_participants, conversationFindOrCreate_participants]
  · show (savedInbound db ws ca i).1.messages = _
    unfold savedInbound
    rw [saveMessage_messages]
    unfold dbAfterConvResolve
    rw [conversationFindOrCreate_messages, participantFindOrCreate_messages]

/-- `botStep` leaves participants and channel accounts untouched. -/
theorem botStep_tables (env : PipelineEnv) (db : DB) (ws ca : Nat)
    (conv : Conversation) (i : InboundMessage) :
    (botStep env db ws ca conv i).1.participants = db.participants ∧
    (botStep env db ws ca conv i).1.channelAccounts = db.channelAccounts := by
  unfold botStep
  dsimp only
  split
  · split
    · exact ⟨(processBotResponse_tables ..).1, (processBotResponse_tables ..).2.1⟩
    · exact ⟨(processBotResponse_tables ..).1, (processBotResponse_tables ..).2.1⟩
  · exact ⟨rfl, rfl⟩

/-- The conversation table after `botStep` is either untouched or exactly
pause-updated. -/
theorem botStep_conversations_cases (env : PipelineEnv) (db : DB) (ws ca : Nat)
    (conv : Conversation) (i : InboundMessage) :
    (botStep env db ws ca conv i).1.conversations = db.conversations ∨
    (botStep env db ws ca conv i).1.conversations =
      DB.conversations (conversationUpdate db
        (conv.PauseBot (responderOf env db ws i).handoffReason)) := by
  unfold botStep
  dsimp only
  split
  · have h := (processBotResponse_tables env db ws ca conv i).2.2
    split
    · rw [h]
      split
      · exact Or.inr rfl
      · exact Or.inl rfl
    · rw [h]
      split
      · exact Or.inr rfl
      · exact Or.inl rfl
  · exact Or.inl rfl

/-- When the conversation is not paused and the responder hands off, the
bot step pause-updates the conversation table. -/
theorem botStep_conversations_handoff (env : PipelineEnv) (db : DB) (ws ca : Nat)
    (conv : Conversation) (i : InboundMessage)
    (hp : conv.IsBotPaused = false)
    (hsh : (responderOf env db ws i).shouldHandoff = true) :
    (botStep env db ws ca conv i).1.conversations =
      DB.conversations (conversationUpdate db
        (conv.PauseBot (responderOf env db ws i).handoffReason)) := by
  unfold botStep
  dsimp only
  have hcond : (!conv.IsBotPaused) = true := by rw [hp]; rfl
  rw [if_pos hcond]
  have h := (processBotResponse_tables env db ws ca conv i).2.2
  rw [hsh] at h
  simp only [if_true] at h
  split
  · exact h
  · exact h

/-- `botStep` does nothing when the conversation is bot-paused. -/
theorem botStep_paused (env : PipelineEnv) (db : DB) (ws ca : Nat)
    (conv : Conversation) (i : InboundMessage) (hp : conv.IsBotPaused = true) :
    botStep env db ws ca conv i = (db, {}) := by
  unfold botStep
  dsimp only
  rw [if_neg (by rw [hp]; simp)]

/-- The responder output depends only on the rules table. -/
theorem responderOf_ext (env : PipelineEnv) (db1 db2 : DB) (ws : Nat)
    (i : InboundMessage) (h : db1.rules = db2.rules) :
    responderOf env db1 ws i = responderOf env db2 ws i := by
  unfold responderOf
  rw [ruleFindActiveByWorkspace_ext db1 db2 ws h]

/-- After `conversationFindOrCreate` on a prototype with an active status,
the active lookup returns exactly the resolved conversation. -/
theorem conversationFindOrCreate_found_self (db : DB) (cp : Conversation)
    (hact : activeStatus cp.status = true) :
    conversationFindOpenByParticipant (conversationFindOrCreate db cp).1 cp.participantID
      = some (conversationFindOrCreate db cp).2.1 := by
  unfold conversationFindOrCreate
  cases hf : conversationFindOpenByParticipant db cp.participantID with
  | some c => exact hf
  | none =>
    show ({ cp with id := db.nextID } :: db.conversations).find? _ = _
    exact List.find?_cons_of_pos _ (by simp [hact])

/-- C9: the bot responder runs only when the resolved conversation is not
bot-paused — when it is paused, the run adds exactly the inbound message,
leaves the rules (hit counters) untouched and reports no bot activity —
and whenever the responder hands off, the conversation ends the run in
`bot_paused` carrying the handoff reason. -/
theorem spec_C9 (env : PipelineEnv) (db : DB) (ws ca : Nat) (inbound : InboundMessage) :
    ((resolvedConversation db ws ca inbound).IsBotPaused = true →
      ∀ r, (ProcessInbound env db ws ca inbound).2 = .ok r →
        r.botReplied = false ∧ r.botHandoff = false ∧ r.responseSent = none ∧
        (ProcessInbound env db ws ca inbound).1.rules = db.rules ∧
        (ProcessInbound env db ws ca inbound).1.messages.length
          = db.messages.length + 1) ∧
    ((resolvedConversation db ws ca inbound).IsBotPaused = false →
      (responderOf env db ws inbound).shouldHandoff = true →
      ∀ r, (ProcessInbound env db ws ca inbound).2 = .ok r →
        ∃ c, (ProcessInbound env db ws ca inbound).1.conversations.find?
            (fun x => x.id == r.conversationID) = some c ∧
          c.status = .bot_paused ∧
          c.metadata.botHandoffReason
            = (responderOf env db ws inbound).handoffReason) := by
  constructor
  · intro hp r hr
    rw [ProcessInbound_unfold] at hr
    have hreq := (Except.ok.inj hr).symm
    have hp4 : (summaryConv db ws ca inbound).IsBotPaused = true := by
      unfold summaryConv
      rw [UpdateLastMessage_IsBotPaused]
      exact hp
    have hbs : botStepOf env db ws ca inbound = (dbAfterSummary db ws ca inbound, {}) := by
      unfold botStepOf
      exact botStep_paused env _ ws ca _ inbound hp4
    refine ⟨?_, ?_, ?_, ?_, ?_⟩
    · rw [hreq]
      show (botStepOf env db ws ca inbound).2.shouldReply = false
      rw [hbs]
    · rw [hreq]
      show (botStepOf env db ws ca inbound).2.shouldHandoff = false
      rw [hbs]
    · rw [hreq]
      show (botStepOf env db ws ca inbound).2.responseSent = none
      rw [hbs]
    · rw [ProcessInbound_unfold]
      show (botStepOf env db ws ca inbound).1.rules = db.rules
      rw [hbs]
      exact (dbAfterSummary_tables db ws ca inbound).1
    · rw [ProcessInbound_unfold]
      show (botStepOf env db ws ca inbound).1.messages.length = db.messages.length + 1
      rw [hbs]
      rw [(dbAfterSummary_tables db ws ca inbound).2.2.2]
      rfl
  · intro hp hsh r hr
    rw [ProcessInbound_unfold] at hr
    have hreq := (Except.ok.inj hr).symm
    have hp4 : (summaryConv db ws ca inbound).IsBotPaused = false := by
      unfold summaryConv
      rw [UpdateLastMessage_IsBotPaused]
      exact hp
    have hrules := (dbAfterSummary_tables db ws ca inbound).1
    have hsh4 : (responderOf env (dbAfterSummary db ws ca inbound) ws inbound).shouldHandoff
        = true := by
      rw [responderOf_ext env _ db ws inbound hrules]
      exact hsh
    have hconv := botStep_conversations_handoff env (dbAfterSummary db ws ca inbound)
      ws ca (summaryConv db ws ca inbound) inbound hp4 hsh4
    -- presence of the resolved conversation id in the post-summary table
    have hfound := conversationFindOrCreate_found_self
      (participantFindOrCreate db (participantProto ws ca inbound)).1
      (conversationProto ws ca (resolvedParticipant db ws ca inbound).id) rfl
    have hpres0 : (dbAfterConvResolve db ws ca inbound).conversations.any
        (fun x => x.id == (resolvedConversation db ws ca inbound).id) = true :=
      any_id_of_find?_pred _ _ _ hfound
    have hpres1 : (dbAfterSummary db ws ca inbound).conversations.any
        (fun x => x.id == (resolvedConversation db ws ca inbound).id) = true := by
      show ((savedInbound db ws ca inbound).1.conversations.map _).any _ = true
      rw [show (savedInbound db ws ca inbound).1.conversations
        = (dbAfterConvResolve db ws ca inbound).conversations from rfl]
      exact any_id_map_replace _ _ _ hpres0
    set reason := (responderOf env (dbAfterSummary db ws ca inbound) ws inbound).handoffReason
      with hreason
    set paused := (summaryConv db ws ca inbound).PauseBot reason with hpaused
    refine ⟨paused, ?_, rfl, ?_⟩
    · rw [ProcessInbound_unfold]
      show ((botStepOf env db ws ca inbound).1.conversations.find? _) = some paused
      unfold botStepOf
      rw [hconv]
      have := find?_id_map_replace paused (dbAfterSummary db ws ca inbound).conversations
        (by rw [hpaused]; exact hpres1)
      rw [hreq]
      exact this
    · rw [hpaused]
      show reason = (responderOf env db ws inbound).handoffReason
      rw [hreason, responderOf_ext env _ db ws inbound hrules]

theorem participantProto_channelAccountID (ws ca : Nat) (i : InboundMessage) :
    (participantProto ws ca i).channelAccountID = ca := rfl

theorem participantProto_channelUserID (ws ca : Nat) (i : InboundMessage) :
    (participantProto ws ca i).channelUserID = i.senderID := rfl

/-- The participant key lookup, after `participantFindOrCreate`, finds the
resolved participant. -/
theorem resolvedParticipant_find (db : DB) (ws ca : Nat) (i : InboundMessage) :
    (participantFindOrCreate db (participantProto ws ca i)).1.participants.find?
      (fun q => q.channelAccountID == ca && q.channelUserID == i.senderID)
      = some (resolvedParticipant db ws ca i) := by
  unfold resolvedParticipant participantFindOrCreate
  cases hf : db.participants.find? (fun q =>
      q.channelAccountID == (participantProto ws ca i).channelAccountID &&
      q.channelUserID == (participantProto ws ca i).channelUserID) with
  | some q => exact hf
  | none =>
    show List.find? _ ({ participantProto ws ca i with id := db.nextID } :: db.participants)
      = _
    exact List.find?_cons_of_pos _ (by simp [participantProto])

/-- `participantFindOrCreate` on a key already present just returns the
found row. -/
theorem participantFindOrCreate_eq (db : DB) (ws ca : Nat) (i : InboundMessage)
    (q : Participant)
    (hf : db.participants.find?
      (fun x => x.channelAccountID == ca && x.channelUserID == i.senderID) = some q) :
    participantFindOrCreate db (participantProto ws ca i) = (db, q, false) := by
  unfold participantFindOrCreate
  rw [show (fun x : Participant =>
      x.channelAccountID == (participantProto ws ca i).channelAccountID &&
      x.channelUserID == (participantProto ws ca i).channelUserID)
    = (fun x : Participant =>
      x.channelAccountID == ca && x.channelUserID == i.senderID) from rfl]
  rw [hf]

/-- `conversationFindOrCreate` on a participant with an active conversation
just returns it. -/
theorem conversationFindOrCreate_of_found (db : DB) (conv : Conversation)
    (c : Conversation)
    (hf : conversationFindOpenByParticipant db conv.participantID = some c) :
    conversationFindOrCreate db conv = (db, c, false) := by
  unfold conversationFindOrCreate
  rw [hf]

/-- The participant table after a full run is the table after step 1. -/
theorem ProcessInbound_participants (env : PipelineEnv) (db : DB) (ws ca : Nat)
    (i : InboundMessage) :
    (ProcessInbound env db ws ca i).1.participants
      = (participantFindOrCreate db (participantProto ws ca i)).1.participants := by
  rw [ProcessInbound_unfold]
  show (botStepOf env db ws ca i).1.participants = _
  unfold botStepOf
  rw [(botStep_tables ..).1]
  exact (dbAfterSummary_tables db ws ca i).2.2.1

/-- After a full run, the resolved participant still has an active
conversation, and its id is the resolved conversation's id. -/
theorem ProcessInbound_active_conversation (env : PipelineEnv) (db : DB) (ws ca : Nat)
    (i : InboundMessage) :
    ∃ c2, conversationFindOpenByParticipant (ProcessInbound env db ws ca i).1
        (resolvedParticipant db ws ca i).id = some c2 ∧
      c2.id = (resolvedConversation db ws ca i).id := by
  have hfound := conversationFindOrCreate_found_self
    (participantFindOrCreate db (participantProto ws ca i)).1
    (conversationProto ws ca (resolvedParticipant db ws ca i).id) rfl
  have hfacts := List.find?_some hfound
  simp only [Bool.and_eq_true, beq_iff_eq] at hfacts
  have hpid : (resolvedConversation db ws ca i).participantID
      = (resolvedParticipant db ws ca i).id := hfacts.1
  have hact : activeStatus (resolvedConversation db ws ca i).status = true := hfacts.2
  -- step 4: the summary update keeps the lookup pointed at the conversation
  have hsum : conversationFindOpenByParticipant (dbAfterSummary db ws ca i)
      (resolvedParticipant db ws ca i).id = some (summaryConv db ws ca i) := by
    show ((savedInbound db ws ca i).1.conversations.map _).find? _ = _
    rw [show (savedInbound db ws ca i).1.conversations
      = (dbAfterConvResolve db ws ca i).conversations from rfl]
    exact find?_active_map_replace _ (resolvedConversation db ws ca i) _ _ hfound rfl
      (by rw [show (summaryConv db ws ca i).participantID
            = (resolvedConversation db ws ca i).participantID from rfl]
          exact hpid)
      (by rw [show activeStatus (summaryConv db ws ca i).status
            = activeStatus (resolvedConversation db ws ca i).status from rfl]
          exact hact)
  rw [ProcessInbound_unfold]
  show ∃ c2, conversationFindOpenByParticipant (botStepOf env db ws ca i).1 _ = some c2 ∧ _
  unfold botStepOf
  rcases botStep_conversations_cases env (dbAfterSummary db ws ca i) ws ca
      (summaryConv db ws ca i) i with hc | hc
  · refine ⟨summaryConv db ws ca i, ?_, rfl⟩
    unfold conversationFindOpenByParticipant
    rw [hc]
    exact hsum
  · refine ⟨(summaryConv db ws ca i).PauseBot
      (responderOf env (dbAfterSummary db ws ca i) ws i).handoffReason, ?_, rfl⟩
    unfold conversationFindOpenByParticipant
    rw [hc]
    exact find?_active_map_replace _ (summaryConv db ws ca i) _ _ hsum rfl
      (by rw [show ((summaryConv db ws ca i).PauseBot
            (responderOf env (dbAfterSummary db ws ca i) ws i).handoffReason).participantID
          = (resolvedConversation db ws ca i).participantID from rfl]
          exact hpid)
      rfl

/-- C8: two sequential inbound deliveries from the same channel account and
sender resolve to the same conversation id, and the second reports
`conversationCreated = false`. -/
theorem spec_C8 (env1 env2 : PipelineEnv) (db : DB) (ws ca : Nat)
    (i1 i2 : InboundMessage) (hsender : i2.senderID = i1.senderID)
    (r1 r2 : ProcessResult)
    (h1 : (ProcessInbound env1 db ws ca i1).2 = .ok r1)
    (h2 : (ProcessInbound env2 (ProcessInbound env1 db ws ca i1).1 ws ca i2).2 = .ok r2) :
    r2.conversationID = r1.conversationID ∧ r2.conversationCreated = false := by
  rw [ProcessInbound_unfold] at h1
  have hr1 := (Except.ok.inj h1).symm
  rw [ProcessInbound_unfold] at h2
  have hr2 := (Except.ok.inj h2).symm
  set db1 := (ProcessInbound env1 db ws ca i1).1 with hdb1
  -- run 2 finds the participant resolved by run 1
  have hfind2 : db1.participants.find?
      (fun x => x.channelAccountID == ca && x.channelUserID == i2.senderID)
      = some (resolvedParticipant db ws ca i1) := by
    rw [hsender, hdb1, ProcessInbound_participants]
    exact resolvedParticipant_find db ws ca i1
  have hs1 : participantFindOrCreate db1 (participantProto ws ca i2)
      = (db1, resolvedParticipant db ws ca i1, false) :=
    participantFindOrCreate_eq db1 ws ca i2 _ hfind2
  have hp2 : resolvedParticipant db1 ws ca i2 = resolvedParticipant db ws ca i1 := by
    unfold resolvedParticipant
    rw [hs1]
    rfl
  -- run 2 finds the active conversation left by run 1
  obtain ⟨c2, hc2, hc2id⟩ := ProcessInbound_active_conversation env1 db ws ca i1
  rw [← hdb1] at hc2
  have hs2 : conversationFindOrCreate (participantFindOrCreate db1
        (participantProto ws ca i2)).1
      (conversationProto ws ca (resolvedParticipant db1 ws ca i2).id)
      = ((participantFindOrCreate db1 (participantProto ws ca i2)).1, c2, false) := by
    apply conversationFindOrCreate_of_found
    rw [show (conversationProto ws ca (resolvedParticipant db1 ws ca i2).id).participantID
      = (resolvedParticipant db1 ws ca i2).id from rfl]
    rw [hp2, hs1]
    exact hc2
  constructor
  · rw [hr1, hr2]
    show (resolvedConversation db1 ws ca i2).id = (resolvedConversation db ws ca i1).id
    unfold resolvedConversation
    rw [hs2]
    exact hc2id
  · rw [hr2]
    show (conversationFindOrCreate (participantFindOrCreate db1
        (participantProto ws ca i2)).1
      (conversationProto ws ca (resolvedParticipant db1 ws ca i2).id)).2.2 = false
    rw [hs2]

/-- The delivery attempt fails: either the channel-account credential
lookup fails, or the adapter's `Send` returns a function error, or it
returns a `SendResult` with `Success = false`. -/
def sendFails (env : PipelineEnv) (db : DB) (channelAccountID : Nat)
    (channelType : String) (resp : OutboundMessage) : Prop :=
  match channelAccountFindByID db channelAccountID with
  | none => True
  | some acct =>
    (env.send channelType resp (credsOf acct)).2.isSome = true ∨
    ((env.send channelType resp (credsOf acct)).2 = none ∧
      (env.send channelType resp (credsOf acct)).1.success = false)

/-- When the channel is registered but the delivery fails, `botSendPath`
persists the bot message and reports `ok` with the base result (no reply
recorded, nothing sent). -/
theorem botSendPath_sendFail (env : PipelineEnv) (db : DB) (channelAccountID convID : Nat)
    (br : BotResponse) (resp : OutboundMessage) (channelType : String)
    (base : BotProcResult)
    (hreg : env.registered.contains channelType = true)
    (hfail : sendFails env db channelAccountID channelType resp) :
    botSendPath env db channelAccountID convID br resp channelType base
      = ((messageCreate db (botOutMessage convID br resp)).1, .ok base) := by
  unfold botSendPath
  dsimp only
  rw [if_neg (by rw [hreg]; simp)]
  have hca : channelAccountFindByID
      (messageCreate db (botOutMessage convID br resp)).1 channelAccountID
      = channelAccountFindByID db channelAccountID := rfl
  rw [hca]
  unfold sendFails at hfail
  cases hacct : channelAccountFindByID db channelAccountID with
  | none => rfl
  | some acct =>
    dsimp only
    rw [hacct] at hfail
    rcases hfail with hferr | ⟨hnone, hsucc⟩
    · cases he : (env.send channelType resp (credsOf acct)).2 with
      | none => rw [he] at hferr; simp at hferr
      | some e => rfl
    · rw [hnone, hsucc]
      rfl

/-- `botStep` on a non-paused conversation dispatches on the bot-response
outcome. -/
theorem botStep_notPaused (env : PipelineEnv) (db : DB) (ws ca : Nat)
    (conv : Conversation) (i : InboundMessage) (hp : conv.IsBotPaused = false) :
    botStep env db ws ca conv i =
      (match (processBotResponse env db ws ca conv i).2 with
        | .error _ => ((processBotResponse env db ws ca conv i).1, {})
        | .ok bpr => ((processBotResponse env db ws ca conv i).1, bpr)) := by
  unfold botStep
  dsimp only
  rw [if_pos (by rw [hp]; rfl)]

/-- `processBotResponse` under a shouldReply responder and a failing
delivery: the result is `ok` with no reply recorded, and the bot message
row is persisted on top of the incoming store. -/
theorem processBotResponse_sendFail (env : PipelineEnv) (db : DB) (ws ca : Nat)
    (conv : Conversation) (i : InboundMessage) (resp : OutboundMessage)
    (hrep : (responderOf env db ws i).shouldReply = true)
    (hres : (responderOf env db ws i).response = some resp)
    (hreg : env.registered.contains i.channelType = true)
    (hfail : sendFails env db ca i.channelType resp) :
    (processBotResponse env db ws ca conv i).2
        = .ok { shouldHandoff := (responderOf env db ws i).shouldHandoff } ∧
    (processBotResponse env db ws ca conv i).1.messages =
      { botOutMessage conv.id (responderOf env db ws i) resp with id := db.nextID }
        :: db.messages := by
  unfold responderOf at hrep hres ⊢
  unfold processBotResponse
  dsimp only
  set E := Responder.Process (ruleFindActiveByWorkspace db ws) i.senderID i.content env.now
    with hE
  rw [hres, hrep]
  cases hmr : E.matchedRule with
  | none =>
    cases hsh : E.shouldHandoff with
    | false =>
      simp only [Bool.false_eq_true, if_false]
      have hf2 : sendFails env db ca i.channelType resp := hfail
      rw [botSendPath_sendFail env db ca conv.id _ resp i.channelType _ hreg hf2]
      exact ⟨rfl, rfl⟩
    | true =>
      simp only [if_true]
      have hf2 : sendFails env (conversationUpdate db (conv.PauseBot E.handoffReason))
          ca i.channelType resp := hfail
      rw [botSendPath_sendFail env (conversationUpdate db (conv.PauseBot E.handoffReason))
        ca conv.id _ resp i.channelType _ hreg hf2]
      exact ⟨rfl, rfl⟩
  | some r =>
    cases hsh : E.shouldHandoff with
    | false =>
      simp only [Bool.false_eq_true, if_false]
      have hf2 : sendFails env (ruleIncrementHitCount db r.id env.now)
          ca i.channelType resp := hfail
      rw [botSendPath_sendFail env (ruleIncrementHitCount db r.id env.now)
        ca conv.id _ resp i.channelType _ hreg hf2]
      exact ⟨rfl, rfl⟩
    | true =>
      simp only [if_true]
      have hf2 : sendFails env (conversationUpdate (ruleIncrementHitCount db r.id env.now)
          (conv.PauseBot E.handoffReason)) ca i.channelType resp := hfail
      rw [botSendPath_sendFail env (conversationUpdate
          (ruleIncrementHitCount db r.id env.now) (conv.PauseBot E.handoffReason))
        ca conv.id _ resp i.channelType _ hreg hf2]
      exact ⟨rfl, rfl⟩

/-- C10: when the responder produced a reply but the delivery failed (the
credential lookup failed, `Send` returned a function error, or the
`SendResult` reports failure), `ProcessInbound` still returns a `nil`
error with `botReplied = false` and `responseSent = none`, yet the
bot-authored message row exists. -/
theorem spec_C10 (env : PipelineEnv) (db : DB) (ws ca : Nat) (inbound : InboundMessage)
    (resp : OutboundMessage)
    (hnp : (resolvedConversation db ws ca inbound).IsBotPaused = false)
    (hrep : (responderOf env db ws inbound).shouldReply = true)
    (hres : (responderOf env db ws inbound).response = some resp)
    (hreg : env.registered.contains inbound.channelType = true)
    (hfail : sendFails env db ca inbound.channelType resp) :
    ∃ r, (ProcessInbound env db ws ca inbound).2 = .ok r ∧
      r.botReplied = false ∧ r.responseSent = none ∧
      ((ProcessInbound env db ws ca inbound).1.messages.any (fun m =>
        m.senderType == SenderType.bot && m.conversationID == r.conversationID &&
        m.content == some resp.content)) = true := by
  have hrules := (dbAfterSummary_tables db ws ca inbound).1
  have hrep4 : (responderOf env (dbAfterSummary db ws ca inbound) ws inbound).shouldReply
      = true := by rw [responderOf_ext env _ db ws inbound hrules]; exact hrep
  have hres4 : (responderOf env (dbAfterSummary db ws ca inbound) ws inbound).response
      = some resp := by rw [responderOf_ext env _ db ws inbound hrules]; exact hres
  have hfail4 : sendFails env (dbAfterSummary db ws ca inbound) ca inbound.channelType
      resp := by
    unfold sendFails at hfail ⊢
    rw [channelAccountFindByID_ext _ db ca (dbAfterSummary_tables db ws ca inbound).2.1]
    exact hfail
  have hp4 : (summaryConv db ws ca inbound).IsBotPaused = false := by
    unfold summaryConv
    rw [UpdateLastMessage_IsBotPaused]
    exact hnp
  have hpbr := processBotResponse_sendFail env (dbAfterSummary db ws ca inbound) ws ca
    (summaryConv db ws ca inbound) inbound resp hrep4 hres4 hreg hfail4
  have hbs : botStepOf env db ws ca inbound =
      ((processBotResponse env (dbAfterSummary db ws ca inbound) ws ca
          (summaryConv db ws ca inbound) inbound).1,
        { shouldHandoff :=
            (responderOf env (dbAfterSummary db ws ca inbound) ws inbound).shouldHandoff }) := by
    unfold botStepOf
    rw [botStep_notPaused env _ ws ca _ inbound hp4, hpbr.1]
  rw [ProcessInbound_unfold]
  refine ⟨_, rfl, ?_, ?_, ?_⟩
  · show (botStepOf env db ws ca inbound).2.shouldReply = false
    rw [hbs]
  · show (botStepOf env db ws ca inbound).2.responseSent = none
    rw [hbs]
  · show ((botStepOf env db ws ca inbound).1.messages.any _) = true
    rw [hbs]
    show ((processBotResponse env (dbAfterSummary db ws ca inbound) ws ca
      (summaryConv db ws ca inbound) inbound).1.messages.any _) = true
    rw [hpbr.2]
    simp only [List.any_cons, Bool.or_eq_true]
    left
    simp [botOutMessage]
    unfold summaryConv
    rw [UpdateLastMessage_id]

/-! ### Counting lemmas for the dedup claim (C1) -/

theorem inboundCountWithCMID_ext (db1 db2 : DB) (c : String)
    (h : db1.messages = db2.messages) :
    inboundCountWithCMID db1 c = inboundCountWithCMID db2 c := by
  unfold inboundCountWithCMID
  rw [h]

theorem inboundCountWithCMID_create_out (db : DB) (msg : Message) (c : String)
    (h : msg.direction = .dirOut) :
    inboundCountWithCMID (messageCreate db msg).1 c = inboundCountWithCMID db c := by
  unfold inboundCountWithCMID
  rw [messageCreate_messages, List.filter_cons, if_neg (by simp [h])]

theorem inboundCountWithCMID_create_in (db : DB) (msg : Message) (c : String)
    (hd : msg.direction = .dirIn) (hc : msg.channelMessageID = some c) :
    inboundCountWithCMID (messageCreate db msg).1 c
      = inboundCountWithCMID db c + 1 := by
  unfold inboundCountWithCMID
  rw [messageCreate_messages, List.filter_cons, if_pos (by simp [hd, hc])]
  simp

/-- Back-filling the provider id on the freshly created bot message does
not change the inbound count, given fresh message ids. -/
theorem inboundCountWithCMID_update_out (db : DB) (msg : Message) (c : String)
    (hall : ∀ m ∈ db.messages, m.id = msg.id → m.direction = .dirOut)
    (hd : msg.direction = .dirOut) :
    inboundCountWithCMID (messageUpdate db msg) c = inboundCountWithCMID db c := by
  unfold inboundCountWithCMID messageUpdate
  exact filter_length_map_replace msg _ db.messages
    (fun m hm hid => by simp [hall m hm hid]) (by simp [hd])

theorem botSendPath_inCnt (env : PipelineEnv) (db : DB) (channelAccountID convID : Nat)
    (br : BotResponse) (resp : OutboundMessage) (channelType : String)
    (base : BotProcResult) (c : String) (hwf : db.wfMessages) :
    inboundCountWithCMID
        (botSendPath env db channelAccountID convID br resp channelType base).1 c
      = inboundCountWithCMID db c ∧
    (botSendPath env db channelAccountID convID br resp channelType base).1.wfMessages := by
  have hcnt1 : inboundCountWithCMID
      (messageCreate db (botOutMessage convID br resp)).1 c
      = inboundCountWithCMID db c :=
    inboundCountWithCMID_create_out _ _ _ rfl
  have hwf1 : (messageCreate db (botOutMessage convID br resp)).1.wfMessages :=
    wfMessages_messageCreate _ _ hwf
  unfold botSendPath
  dsimp only
  split
  · exact ⟨hcnt1, hwf1⟩
  · split
    · exact ⟨hcnt1, hwf1⟩
    · split
      · exact ⟨hcnt1, hwf1⟩
      · split
        · split
          · constructor
            · rw [inboundCountWithCMID_update_out]
              · exact hcnt1
              · intro m hm hid
                rw [messageCreate_messages] at hm
                rcases List.mem_cons.mp hm with h1 | h1
                · rw [h1]
                  rfl
                · exact absurd hid (Nat.ne_of_lt (hwf m h1))
              · rfl
            · exact wfMessages_messageUpdate _ _ hwf1 (Nat.lt_succ_self _)
          · exact ⟨hcnt1, hwf1⟩
        · exact ⟨hcnt1, hwf1⟩

theorem processBotResponse_inCnt (env : PipelineEnv) (db : DB) (ws ca : Nat)
    (conv : Conversation) (i : InboundMessage) (c : String) (hwf : db.wfMessages) :
    inboundCountWithCMID (processBotResponse env db ws ca conv i).1 c
      = inboundCountWithCMID db c ∧
    (processBotResponse env db ws ca conv i).1.wfMessages := by
  unfold processBotResponse
  dsimp only
  set E := Responder.Process (ruleFindActiveByWorkspace db ws) i.senderID i.content env.now
    with hE
  cases hmr : E.matchedRule with
  | none =>
    cases hsh : E.shouldHandoff with
    | false =>
      simp only [Bool.false_eq_true, if_false]
      cases hre : E.response with
      | none => exact ⟨rfl, hwf⟩
      | some r0 =>
        cases hrp : E.shouldReply with
        | false => exact ⟨rfl, hwf⟩
        | true => exact botSendPath_inCnt env db ca conv.id E r0 i.channelType _ c hwf
    | true =>
      simp only [if_true]
      cases hre : E.response with
      | none => exact ⟨rfl, hwf⟩
      | some r0 =>
        cases hrp : E.shouldReply with
        | false => exact ⟨rfl, hwf⟩
        | true =>
          exact botSendPath_inCnt env
            (conversationUpdate db (conv.PauseBot E.handoffReason)) ca conv.id E r0
            i.channelType _ c hwf
  | some r =>
    cases hsh : E.shouldHandoff with
    | false =>
      simp only [Bool.false_eq_true, if_false]
      cases hre : E.response with
      | none => exact ⟨rfl, hwf⟩
      | some r0 =>
        cases hrp : E.shouldReply with
        | false => exact ⟨rfl, hwf⟩
        | true =>
          exact botSendPath_inCnt env (ruleIncrementHitCount db r.id env.now) ca conv.id
            E r0 i.channelType _ c hwf
    | true =>
      simp only [if_true]
      cases hre : E.response with
      | none => exact ⟨rfl, hwf⟩
      | some r0 =>
        cases hrp : E.shouldReply with
        | false => exact ⟨rfl, hwf⟩
        | true =>
          exact botSendPath_inCnt env
            (conversationUpdate (ruleIncrementHitCount db r.id env.now)
              (conv.PauseBot E.handoffReason)) ca conv.id E r0 i.channelType _ c hwf

theorem botStep_inCnt (env : PipelineEnv) (db : DB) (ws ca : Nat)
    (conv : Conversation) (i : InboundMessage) (c : String) (hwf : db.wfMessages) :
    inboundCountWithCMID (botStep env db ws ca conv i).1 c
      = inboundCountWithCMID db c ∧
    (botStep env db ws ca conv i).1.wfMessages := by
  unfold botStep
  dsimp only
  split
  · split
    · exact processBotResponse_inCnt env db ws ca conv i c hwf
    · exact processBotResponse_inCnt env db ws ca conv i c hwf
  · exact ⟨rfl, hwf⟩

/-- C1 amended: `ProcessInbound` performs no dedup — a delivery carrying a
non-empty provider message id always creates one more inbound `Message`
row with that id, even when one already exists; the pipeline still
returns `ok`. -/
theorem spec_C1_amended (env : PipelineEnv) (db : DB) (ws ca : Nat)
    (inbound : InboundMessage) (hwf : db.wfMessages)
    (hne : inbound.channelMessageID ≠ "") :
    (∃ r, (ProcessInbound env db ws ca inbound).2 = .ok r) ∧
    inboundCountWithCMID (ProcessInbound env db ws ca inbound).1
        inbound.channelMessageID
      = inboundCountWithCMID db inbound.channelMessageID + 1 := by
  constructor
  · exact ⟨_, by rw [ProcessInbound_unfold]⟩
  · have h2m : (dbAfterConvResolve db ws ca inbound).messages = db.messages := by
      unfold dbAfterConvResolve
      rw [conversationFindOrCreate_messages, participantFindOrCreate_messages]
    have h2n : db.nextID ≤ (dbAfterConvResolve db ws ca inbound).nextID := by
      unfold dbAfterConvResolve
      exact Nat.le_trans (participantFindOrCreate_nextID_le db _)
        (conversationFindOrCreate_nextID_le _ _)
    have hwf2 : (dbAfterConvResolve db ws ca inbound).wfMessages :=
      wfMessages_of_eq_mono _ _ hwf h2m h2n
    have h3 : inboundCountWithCMID (savedInbound db ws ca inbound).1
        inbound.channelMessageID
        = inboundCountWithCMID (dbAfterConvResolve db ws ca inbound)
            inbound.channelMessageID + 1 := by
      unfold savedInbound saveMessage
      refine inboundCountWithCMID_create_in _ _ _ rfl ?_
      show (if inbound.channelMessageID ≠ "" then some inbound.channelMessageID
        else none) = some inbound.channelMessageID
      rw [if_pos hne]
    have hwf3 : (savedInbound db ws ca inbound).1.wfMessages := by
      unfold savedInbound saveMessage
      exact wfMessages_messageCreate _ _ hwf2
    have hwf4 : (dbAfterSummary db ws ca inbound).wfMessages := hwf3
    have hbot := botStep_inCnt env (dbAfterSummary db ws ca inbound) ws ca
      (summaryConv db ws ca inbound) inbound inbound.channelMessageID hwf4
    rw [ProcessInbound_unfold]
    show inboundCountWithCMID (botStepOf env db ws ca inbound).1 _ = _
    unfold botStepOf
    rw [hbot.1]
    rw [show inboundCountWithCMID (dbAfterSummary db ws ca inbound)
        inbound.channelMessageID
      = inboundCountWithCMID (savedInbound db ws ca inbound).1
          inbound.channelMessageID from rfl]
    rw [h3]
    rw [inboundCountWithCMID_ext _ db _ h2m]

/-! ### Concrete pipeline scenarios -/

/-- An environment whose adapter delivery always succeeds. -/
def wEnv : PipelineEnv where
  registered := ["mock"]
  send := fun _ _ _ => ({ success := true, channelMessageID := "sent1" }, none)
  now := ⟨0⟩

/-- An environment whose adapter delivery always reports a structured
failure. -/
def wEnvFail : PipelineEnv where
  registered := ["mock"]
  send := fun _ _ _ => ({ success := false, error := some "provider down" }, none)
  now := ⟨0⟩

/-- A keyword rule with a text reply. -/
def wRuleText : Rule where
  id := 8
  workspaceID := 5
  triggerType := .keyword
  triggerConfig := { keywords := ["hi"], matchType := "contains" }
  responseType := .text
  responseConfig := { text := "Hi there" }
  priority := 50

/-- A keyword rule requesting handoff with no configured message. -/
def wRuleHandoff : Rule where
  id := 7
  workspaceID := 5
  triggerType := .keyword
  triggerConfig := { keywords := ["agent"], matchType := "contains" }
  responseType := .handoff
  priority := 50

def wAcct : ChannelAccount where
  id := 1
  workspaceID := 5
  credentials := { pageAccessToken := "tok", appSecret := "sec" }

def wInb : InboundMessage where
  channelType := "mock"
  channelMessageID := "m1"
  senderID := "u1"
  content := "hi"
  contentType := "text"

def wInbAgent : InboundMessage where
  channelType := "mock"
  channelMessageID := "m2"
  senderID := "u1"
  content := "agent"
  contentType := "text"

def wPart : Participant where
  id := 2
  workspaceID := 5
  channelAccountID := 1
  channelUserID := "u1"

def wConvPaused : Conversation where
  id := 3
  workspaceID := 5
  channelAccountID := 1
  participantID := 2
  status := .bot_paused

def wDB : DB where
  rules := [wRuleText]
  channelAccounts := [wAcct]
  nextID := 10

def wDBPaused : DB where
  participants := [wPart]
  conversations := [wConvPaused]
  rules := [wRuleText]
  channelAccounts := [wAcct]
  nextID := 10

def wDBHandoff : DB where
  rules := [wRuleHandoff]
  channelAccounts := [wAcct]
  nextID := 10

/-- A message row already persisted with provider message id `m1`. -/
def wMsgDup : Message where
  id := 4
  conversationID := 3
  direction := .dirIn
  senderType := .customer
  content := some "hello"
  contentType := "text"
  channelMessageID := some "m1"

def wDBDup : DB where
  participants := [wPart]
  conversations := []
  messages := [wMsgDup]
  rules := [wRuleText]
  channelAccounts := [wAcct]
  nextID := 10

/-- The reply the responder builds from `wRuleText`. -/
def wResp : OutboundMessage where
  recipientID := "u1"
  content := "Hi there"
  contentType := "text"

/-- C1: the spec claims redelivering a payload with an already-persisted
provider message id never creates a second `Message` row with that id.
In the code `FindByChannelMessageID` is never consulted: after a first
run persists the inbound row for `m1` (and the lookup would find it), a
second identical delivery still returns `ok` and the store holds two
inbound rows with provider id `m1`. -/
theorem spec_C1_counterexample :
    (messageFindByChannelMessageID (ProcessInbound wEnv wDB 5 1 wInb).1 "m1").isSome
      = true ∧
    inboundCountWithCMID (ProcessInbound wEnv wDB 5 1 wInb).1 "m1" = 1 ∧
    (∃ r, (ProcessInbound wEnv (ProcessInbound wEnv wDB 5 1 wInb).1 5 1 wInb).2
      = .ok r) ∧
    inboundCountWithCMID
        (ProcessInbound wEnv (ProcessInbound wEnv wDB 5 1 wInb).1 5 1 wInb).1 "m1"
      = 2 :=
  ⟨by decide, by decide, ⟨_, rfl⟩, by decide⟩

/-- C1 amended, witnessed on a store already holding an inbound row with
provider id `m1`: the run succeeds and a second row with that id appears. -/
theorem spec_C1_amended_witness :
    wDBDup.wfMessages ∧ wInb.channelMessageID ≠ "" ∧
    ((∃ r, (ProcessInbound wEnv wDBDup 5 1 wInb).2 = .ok r) ∧
      inboundCountWithCMID (ProcessInbound wEnv wDBDup 5 1 wInb).1
          wInb.channelMessageID
        = inboundCountWithCMID wDBDup wInb.channelMessageID + 1) :=
  ⟨by decide, by decide, spec_C1_amended wEnv wDBDup 5 1 wInb (by decide) (by decide)⟩

/-- C8 witnessed: two deliveries from sender `u1` through channel account 1;
the second reuses the conversation of the first and reports
`conversationCreated = false`. -/
theorem spec_C8_witness :
    ∃ r1 r2, (ProcessInbound wEnv wDB 5 1 wInb).2 = .ok r1 ∧
      (ProcessInbound wEnv (ProcessInbound wEnv wDB 5 1 wInb).1 5 1 wInbAgent).2
        = .ok r2 ∧
      r2.conversationID = r1.conversationID ∧ r2.conversationCreated = false :=
  ⟨_, _, rfl, rfl, spec_C8 wEnv wEnv wDB 5 1 wInb wInbAgent (by decide) _ _ rfl rfl⟩

/-- C9 witnessed: on a store whose active conversation is `bot_paused`, the
run leaves the rules untouched, adds exactly the inbound row and reports no
bot activity; on a store with a matching handoff rule, the run ends with
the conversation `bot_paused` carrying the default handoff reason. -/
theorem spec_C9_witness :
    (∃ r, (ProcessInbound wEnv wDBPaused 5 1 wInb).2 = .ok r ∧
      (r.botReplied = false ∧ r.botHandoff = false ∧ r.responseSent = none ∧
        (ProcessInbound wEnv wDBPaused 5 1 wInb).1.rules = wDBPaused.rules ∧
        (ProcessInbound wEnv wDBPaused 5 1 wInb).1.messages.length
          = wDBPaused.messages.length + 1)) ∧
    (∃ r, (ProcessInbound wEnv wDBHandoff 5 1 wInbAgent).2 = .ok r ∧
      ∃ c, (ProcessInbound wEnv wDBHandoff 5 1 wInbAgent).1.conversations.find?
          (fun x => x.id == r.conversationID) = some c ∧
        c.status = .bot_paused ∧
        c.metadata.botHandoffReason
          = (responderOf wEnv wDBHandoff 5 wInbAgent).handoffReason) :=
  ⟨⟨_, rfl, (spec_C9 wEnv wDBPaused 5 1 wInb).1 (by decide) _ rfl⟩,
   ⟨_, rfl, (spec_C9 wEnv wDBHandoff 5 1 wInbAgent).2 (by decide) (by decide) _ rfl⟩⟩

/-- C10 witnessed: the responder replies `Hi there` but the adapter reports
a structured failure; the run returns `ok` with `botReplied = false` and
`responseSent = none`, yet the bot-authored row is in the store. -/
theorem spec_C10_witness :
    ∃ r, (ProcessInbound wEnvFail wDB 5 1 wInb).2 = .ok r ∧
      r.botReplied = false ∧ r.responseSent = none ∧
      ((ProcessInbound wEnvFail wDB 5 1 wInb).1.messages.any (fun m =>
        m.senderType == SenderType.bot && m.conversationID == r.conversationID &&
        m.content == some wResp.content)) = true :=
  spec_C10 wEnvFail wDB 5 1 wInb wResp (by decide) (by decide) (by decide) (by decide)
    (Or.inr ⟨rfl, rfl⟩)

end ChatBox
